import Mathlib

/-!
Verification development for the Raspberry Pi PMBus/VRM ICC_MAX tool
(`raspi_iccmax_FF.py`).  The program is embedded shallowly at the level of
bus transactions: the `smbus2` transport is an abstract, history-dependent
oracle, and every function threads the list of transactions attempted so
far (the call log of the transport).  Console output and the fixed settle
delays are side effects outside the transaction-level model and are not
represented.
-/

/-- A transport call: `w` is a plain write transaction (`i2c_msg.write`,
used by `write_block`, line 21-28 of the source), `wr` is the combined
write-register-then-read transaction of `read_block` (lines 30-38). -/
inductive Tx where
  | w (addr : Nat) (data : List Nat)
  | wr (addr : Nat) (reg : Nat) (nbytes : Nat)
deriving DecidableEq, Repr

/-- Transport behaviour: given the transactions attempted so far and the
transaction being attempted, either fail (`none`) or succeed, with the
bytes read (ignored for plain writes).  This models the raw I2C layer the
spec treats as an external collaborator. -/
def Transport : Type := List Tx → Tx → Option (List Nat)

/-- Result of a modification procedure: the three observable outcomes of the
source functions (`return 0` on the "modification skipped" path, `return 0`
at the final success message, `return -1` everywhere else). -/
inductive MRes where
  | skipped
  | success
  | error
deriving DecidableEq, Repr

/-- Framing guarantee of the transport: a successful read of `n` bytes
yields exactly `n` bytes, each in `[0, 255]` (in `smbus2` the read buffer
has fixed length `nbytes`). -/
def fixLen (n : Nat) (bs : List Nat) : List Nat :=
  ((bs ++ List.replicate n 0).take n).map (fun b => b % 256)

/-- Source line 14-16: retry budgets. -/
def RETRY_RW : Nat := 4

/-- Source line 16: scan-probe retry budget. -/
def RETRY_SCAN : Nat := 2

/-- Source lines 21-28, `write_block`: one write transaction; the attempt is
logged whether or not it succeeds, the return code is 0 on success and -1
on failure. -/
def write_block (T : Transport) (tr : List Tx) (addr7 : Nat) (data : List Nat) :
    Int × List Tx :=
  match T tr (Tx.w addr7 data) with
  | some _ => (0, tr ++ [Tx.w addr7 data])
  | none => (-1, tr ++ [Tx.w addr7 data])

/-- Source lines 30-38, `read_block`: write the register number, then read
`nbytes` bytes, as one combined transaction. -/
def read_block (T : Transport) (tr : List Tx) (addr7 : Nat) (reg : Nat) (nbytes : Nat) :
    Int × List Nat × List Tx :=
  match T tr (Tx.wr addr7 reg nbytes) with
  | some bs => (0, fixLen nbytes bs, tr ++ [Tx.wr addr7 reg nbytes])
  | none => (-1, [], tr ++ [Tx.wr addr7 reg nbytes])

/-- Retry loop of `vrm_write_block` (source lines 40-54), recursion on the
remaining number of attempts.  Each attempt: if `page >= 0`, first the
page-select write `[0x00, page]`; only if that succeeded, the payload
write; success returns immediately, otherwise the whole attempt repeats. -/
def vrm_write_go (T : Transport) (addr7 : Nat) (page : Int) (payload : List Nat) :
    Nat → List Tx → Int × List Tx
  | 0, tr => (-1, tr)
  | fuel + 1, tr =>
    if 0 ≤ page then
      match write_block T tr addr7 [0x00, page.toNat] with
      | (rcp, tr1) =>
        if rcp = 0 then
          match write_block T tr1 addr7 payload with
          | (rc, tr2) =>
            if rc = 0 then (0, tr2) else vrm_write_go T addr7 page payload fuel tr2
        else vrm_write_go T addr7 page payload fuel tr1
    else
      match write_block T tr addr7 payload with
      | (rc, tr2) =>
        if rc = 0 then (0, tr2) else vrm_write_go T addr7 page payload fuel tr2

/-- Source lines 40-54, `vrm_write_block`: paged write with `RETRY_RW`
attempts. -/
def vrm_write_block (T : Transport) (tr : List Tx) (addr7 : Nat) (page : Int)
    (payload : List Nat) : Int × List Tx :=
  vrm_write_go T addr7 page payload RETRY_RW tr

/-- Retry loop shared by `vrm_read_block` (source lines 56-70) and
`scan_read_block` (source lines 72-84); the two source functions have
identical transaction behaviour and differ only in the retry budget
they run with (and in logging). -/
def vrm_read_go (T : Transport) (addr7 : Nat) (page : Int) (reg : Nat) (nbytes : Nat) :
    Nat → List Tx → Int × List Nat × List Tx
  | 0, tr => (-1, [], tr)
  | fuel + 1, tr =>
    if 0 ≤ page then
      match write_block T tr addr7 [0x00, page.toNat] with
      | (rcp, tr1) =>
        if rcp = 0 then
          match read_block T tr1 addr7 reg nbytes with
          | (rc, data, tr2) =>
            if rc = 0 then (0, data, tr2)
            else vrm_read_go T addr7 page reg nbytes fuel tr2
        else vrm_read_go T addr7 page reg nbytes fuel tr1
    else
      match read_block T tr addr7 reg nbytes with
      | (rc, data, tr2) =>
        if rc = 0 then (0, data, tr2)
        else vrm_read_go T addr7 page reg nbytes fuel tr2

/-- Source lines 56-70, `vrm_read_block`: paged read with `RETRY_RW`
attempts. -/
def vrm_read_block (T : Transport) (tr : List Tx) (addr7 : Nat) (page : Int)
    (reg : Nat) (nbytes : Nat) : Int × List Nat × List Tx :=
  vrm_read_go T addr7 page reg nbytes RETRY_RW tr

/-- Source lines 72-84, `scan_read_block`: same paged read with the shallow
`RETRY_SCAN` budget. -/
def scan_read_block (T : Transport) (tr : List Tx) (addr7 : Nat) (page : Int)
    (reg : Nat) (nbytes : Nat) : Int × List Nat × List Tx :=
  vrm_read_go T addr7 page reg nbytes RETRY_SCAN tr

/-- Source lines 130-134 and 310-314: decoding of the PXE1610C remaining
write-attempts counter from the two bytes read at page 0x50, register
0x82 (`tmp = (att[1] << 2) & 0xFF; remain = (tmp | (att[0] >> 6)) & 0xFF`). -/
def decode_attempts (b0 b1 : Nat) : Nat :=
  (((b1 <<< 2) &&& 0xFF) ||| (b0 >>> 6)) &&& 0xFF

/-- Source lines 158-170: final remaining-attempts read of
`pxe1610_set_icc_max`; its return code decides success vs error. -/
def pxe_stage_att2 (T : Transport) (tr : List Tx) (addr7 : Nat) : MRes × List Tx :=
  match vrm_read_block T tr addr7 0x50 0x82 2 with
  | (rc, _, tr2) => if rc = 0 then (MRes.success, tr2) else (MRes.error, tr2)

/-- Source lines 153-156: clear the NVM password; failure aborts. -/
def pxe_stage_clear (T : Transport) (tr : List Tx) (addr7 : Nat) : MRes × List Tx :=
  match vrm_write_block T tr addr7 0x3F [0x29, 0x00, 0x00] with
  | (rc, tr2) => if rc = 0 then pxe_stage_att2 T tr2 addr7 else (MRes.error, tr2)

/-- Source lines 148-151: upload-configuration trigger.  The source does not
test this write's return code; it proceeds to the password clear either
way. -/
def pxe_stage_trigger (T : Transport) (tr : List Tx) (addr7 : Nat) : MRes × List Tx :=
  pxe_stage_clear T (vrm_write_block T tr addr7 0x3F [0x34]).2 addr7

/-- Source lines 143-146: set the NVM password; failure aborts. -/
def pxe_stage_nvm (T : Transport) (tr : List Tx) (addr7 : Nat) : MRes × List Tx :=
  match vrm_write_block T tr addr7 0x3F [0x29, 0xD7, 0xEF] with
  | (rc, tr2) => if rc = 0 then pxe_stage_trigger T tr2 addr7 else (MRes.error, tr2)

/-- Source lines 138-141: write ICC_MAX = 0xFF00; failure aborts. -/
def pxe_stage_writeIcc (T : Transport) (tr : List Tx) (addr7 : Nat) : MRes × List Tx :=
  match vrm_write_block T tr addr7 0x20 [0x73, 0xFF, 0x00] with
  | (rc, tr2) => if rc = 0 then pxe_stage_nvm T tr2 addr7 else (MRes.error, tr2)

/-- Source lines 129-136: first remaining-attempts read; its outcome is only
logged and does not influence the control flow. -/
def pxe_stage_att1 (T : Transport) (tr : List Tx) (addr7 : Nat) : MRes × List Tx :=
  pxe_stage_writeIcc T (vrm_read_block T tr addr7 0x50 0x82 2).2.2 addr7

/-- Source lines 118-127: read ICC_MAX at page 0x20 reg 0x73; read failure
aborts; byte0 = 0xFF short-circuits to the skipped outcome. -/
def pxe_stage_readIcc (T : Transport) (tr : List Tx) (addr7 : Nat) : MRes × List Tx :=
  match vrm_read_block T tr addr7 0x20 0x73 2 with
  | (rc, icc, tr2) =>
    if rc = 0 then
      if icc.getD 0 0 = 0xFF then (MRes.skipped, tr2) else pxe_stage_att1 T tr2 addr7
    else (MRes.error, tr2)

/-- Source lines 113-116: SMB password write to page 0x3F; failure aborts. -/
def pxe_stage_unlock (T : Transport) (tr : List Tx) (addr7 : Nat) : MRes × List Tx :=
  match vrm_write_block T tr addr7 0x3F [0x27, 0x7C, 0xB3] with
  | (rc, tr2) => if rc = 0 then pxe_stage_readIcc T tr2 addr7 else (MRes.error, tr2)

/-- Source lines 88-111: PXE1610C identification, the three chained reads
with expected values 0xB3, 0x00 and [0x15, 0x04]; a later read happens
only when every earlier one succeeded and matched.  Caveat: when the
first read fails (rc not 0), the source never reaches its `return -1` —
line 91 raises an uncaught ValueError (the fallback string, meant to
print as question marks, is formatted with spec 02X) and the whole
process aborts.  This embedding models that path as the negative
identification result the surrounding code intends; theorems that
quantify over all transports therefore describe the intended behaviour
on the crashing inputs (see the C4 and C10 theorems). -/
def pxe1610_detect (T : Transport) (tr : List Tx) (addr7 : Nat) : Bool × List Tx :=
  match vrm_read_block T tr addr7 0x00 0xFD 1 with
  | (rc, b00fd, tr1) =>
    if rc = 0 ∧ b00fd.getD 0 0 = 0xB3 then
      match vrm_read_block T tr1 addr7 0x4F 0x1A 1 with
      | (rc2, b4f1a, tr2) =>
        if rc2 = 0 ∧ b4f1a.getD 0 0 = 0x00 then
          match vrm_read_block T tr2 addr7 0x4F 0x32 2 with
          | (rc3, b4f32, tr3) =>
            if rc3 = 0 ∧ b4f32.getD 0 0 = 0x15 ∧ b4f32.getD 1 0 = 0x04 then
              (true, tr3)
            else (false, tr3)
        else (false, tr2)
    else (false, tr1)

/-- Source lines 88-170, `pxe1610_set_icc_max`: identification followed by
the modification stages. -/
def pxe1610_set_icc_max (T : Transport) (tr : List Tx) (addr7 : Nat) : MRes × List Tx :=
  match pxe1610_detect T tr addr7 with
  | (ok, tr1) => if ok then pxe_stage_unlock T tr1 addr7 else (MRes.error, tr1)

/-- Source lines 203-213: MP2955A store trigger (single byte 0x15); its
return code decides success vs error. -/
def mp_stage_store (T : Transport) (tr : List Tx) (addr7 : Nat) : MRes × List Tx :=
  match vrm_write_block T tr addr7 0x00 [0x15] with
  | (rc, tr2) => if rc = 0 then (MRes.success, tr2) else (MRes.error, tr2)

/-- Source lines 199-201: read back register 0xEF; the result is only
logged, the control flow continues to the store trigger either way. -/
def mp_stage_readback (T : Transport) (tr : List Tx) (addr7 : Nat) : MRes × List Tx :=
  mp_stage_store T (vrm_read_block T tr addr7 0x00 0xEF 1).2.2 addr7

/-- Source lines 194-197: write `[0xEF, 0xFF]`; failure aborts. -/
def mp_stage_write (T : Transport) (tr : List Tx) (addr7 : Nat) : MRes × List Tx :=
  match vrm_write_block T tr addr7 0x00 [0xEF, 0xFF] with
  | (rc, tr2) => if rc = 0 then mp_stage_readback T tr2 addr7 else (MRes.error, tr2)

/-- Source lines 186-213: MP2955A modification after identification: read
ICC_MAX at reg 0xEF (read failure aborts, 0xFF short-circuits to
skipped), then write, read back, store. -/
def mp2955a_modify (T : Transport) (tr : List Tx) (addr7 : Nat) : MRes × List Tx :=
  match vrm_read_block T tr addr7 0x00 0xEF 1 with
  | (rc, v, tr2) =>
    if rc = 0 then
      if v.getD 0 0 = 0xFF then (MRes.skipped, tr2) else mp_stage_write T tr2 addr7
    else (MRes.error, tr2)

/-- Source lines 172-213, `mp2955a_set_icc_max`: identification (page 0x00
reg 0xBF must read `[0x55, 0x25]`) then modification. -/
def mp2955a_set_icc_max (T : Transport) (tr : List Tx) (addr7 : Nat) : MRes × List Tx :=
  match vrm_read_block T tr addr7 0x00 0xBF 2 with
  | (rc, bf, tr1) =>
    if rc = 0 then
      if bf.getD 0 0 = 0x55 ∧ bf.getD 1 0 = 0x25 then mp2955a_modify T tr1 addr7
      else (MRes.error, tr1)
    else (MRes.error, tr1)

/-- Source lines 246-256: TPS store trigger (single byte 0x11); its return
code decides success vs error. -/
def tps_stage_store (T : Transport) (tr : List Tx) (addr7 : Nat) : MRes × List Tx :=
  match vrm_write_block T tr addr7 0x00 [0x11] with
  | (rc, tr2) => if rc = 0 then (MRes.success, tr2) else (MRes.error, tr2)

/-- Source lines 242-244: read back register 0xDA; only logged. -/
def tps_stage_readback (T : Transport) (tr : List Tx) (addr7 : Nat) : MRes × List Tx :=
  tps_stage_store T (vrm_read_block T tr addr7 0x00 0xDA 2).2.2 addr7

/-- Source lines 237-240: write `[0xDA, 0xFF, 0x00]`; failure aborts. -/
def tps_stage_write (T : Transport) (tr : List Tx) (addr7 : Nat) : MRes × List Tx :=
  match vrm_write_block T tr addr7 0x00 [0xDA, 0xFF, 0x00] with
  | (rc, tr2) => if rc = 0 then tps_stage_readback T tr2 addr7 else (MRes.error, tr2)

/-- Source lines 229-256: TPS modification after identification: read
ICC_MAX at reg 0xDA (read failure aborts, byte0 = 0xFF short-circuits to
skipped), then write, read back, store. -/
def tps_modify (T : Transport) (tr : List Tx) (addr7 : Nat) : MRes × List Tx :=
  match vrm_read_block T tr addr7 0x00 0xDA 2 with
  | (rc, da, tr2) =>
    if rc = 0 then
      if da.getD 0 0 = 0xFF then (MRes.skipped, tr2) else tps_stage_write T tr2 addr7
    else (MRes.error, tr2)

/-- Source lines 215-256, `tps53679_set_icc_max`: identification (page 0x00
reg 0xAD must read byte0 = 0x01 and byte1 = 0x79 or 0x78) then
modification. -/
def tps53679_set_icc_max (T : Transport) (tr : List Tx) (addr7 : Nat) : MRes × List Tx :=
  match vrm_read_block T tr addr7 0x00 0xAD 2 with
  | (rc, ad, tr1) =>
    if rc = 0 then
      if ad.getD 0 0 = 0x01 ∧ (ad.getD 1 0 = 0x79 ∨ ad.getD 1 0 = 0x78) then
        tps_modify T tr1 addr7
      else (MRes.error, tr1)
    else (MRes.error, tr1)

/-- Family classification lines the scanner can print for one address
(source lines 279, 286, 290, 297, 306, 309). -/
inductive Report where
  | isl69127
  | tps53679
  | tps53678
  | mp2955a
  | primarion
  | pxe1610c
deriving DecidableEq, Repr

/-- Source lines 301-317: the Primarion/PXE1610C route of the scanner,
reached when no earlier family matched: the three signature reads, the
"Primarion family" report after the second, the PXE1610C report after
the third, and then the two informational reads (remaining attempts,
decoded with `decode_attempts`, and current ICC_MAX). -/
def scan_primarion (T : Transport) (tr : List Tx) (a : Nat) :
    List Report × Option Nat × List Tx :=
  match scan_read_block T tr a 0x00 0xFD 1 with
  | (rc4, fd, tr4) =>
    if rc4 = 0 ∧ fd.getD 0 0 = 0xB3 then
      match scan_read_block T tr4 a 0x4F 0x1A 1 with
      | (rc5, ia, tr5) =>
        if rc5 = 0 ∧ ia.getD 0 0 = 0x00 then
          match scan_read_block T tr5 a 0x4F 0x32 2 with
          | (rc6, x32, tr6) =>
            if rc6 = 0 ∧ x32.getD 0 0 = 0x15 ∧ x32.getD 1 0 = 0x04 then
              match scan_read_block T tr6 a 0x50 0x82 2 with
              | (rc7, x82, tr7) =>
                match scan_read_block T tr7 a 0x20 0x73 2 with
                | (_, _, tr8) =>
                  ([Report.primarion, Report.pxe1610c],
                   if rc7 = 0 then
                     some (decode_attempts (x82.getD 0 0) (x82.getD 1 0))
                   else none,
                   tr8)
            else ([Report.primarion], none, tr6)
        else ([], none, tr5)
    else ([], none, tr4)

/-- Source lines 294-299: the MP2955A signature check of the scanner. -/
def scan_mp (T : Transport) (tr : List Tx) (a : Nat) :
    List Report × Option Nat × List Tx :=
  match scan_read_block T tr a 0x00 0xBF 2 with
  | (rc3, bf, tr3) =>
    if rc3 = 0 ∧ bf.getD 0 0 = 0x55 ∧ bf.getD 1 0 = 0x25 then
      ([Report.mp2955a], none, tr3)
    else scan_primarion T tr3 a

/-- Source lines 283-292: the TPS53679/TPS53678 signature check of the
scanner (one 2-byte read, tested against both identifier values). -/
def scan_tps (T : Transport) (tr : List Tx) (a : Nat) :
    List Report × Option Nat × List Tx :=
  match scan_read_block T tr a 0x00 0xAD 2 with
  | (rc2, ad2, tr2) =>
    if rc2 = 0 ∧ ad2.getD 0 0 = 0x01 ∧ ad2.getD 1 0 = 0x79 then
      ([Report.tps53679], none, tr2)
    else if rc2 = 0 ∧ ad2.getD 0 0 = 0x01 ∧ ad2.getD 1 0 = 0x78 then
      ([Report.tps53678], none, tr2)
    else scan_mp T tr2 a

/-- Source lines 276-281: the ISL69127 signature check of the scanner, the
first family tried. -/
def scan_isl (T : Transport) (tr : List Tx) (a : Nat) :
    List Report × Option Nat × List Tx :=
  match scan_read_block T tr a 0x00 0xAD 5 with
  | (rc, ad5, tr1) =>
    if rc = 0 ∧ ad5.length = 5 ∧ ad5.getD 4 0 = 0x49 ∧ ad5.getD 3 0 = 0xD2 ∧
        ad5.getD 2 0 = 0x23 ∧ ad5.getD 1 0 = 0x00 then
      ([Report.isl69127], none, tr1)
    else scan_tps T tr1 a

/-- Source lines 263-317, one iteration of the `scan_pmbus` loop body for a
single address: presence probe (a single direct `read_block` of register
0x00; a failure suppresses every family check), then the family checks
in the source's order; returns the classification reports printed for
this address, the decoded remaining-attempts value surfaced for a
confirmed PXE1610C (if that read succeeded), and the transaction log. -/
def scan_addr (T : Transport) (tr : List Tx) (a : Nat) :
    List Report × Option Nat × List Tx :=
  match read_block T tr a 0x00 1 with
  | (rcp, _, tr0) =>
    if rcp = 0 then scan_isl T tr0 a else ([], none, tr0)

/-- Loop of `scan_pmbus` (source lines 261-318): every iteration handles one
address and increments it; recursion on the number of addresses left. -/
def scan_go (T : Transport) : Nat → Nat → List Tx →
    List (Nat × List Report × Option Nat) × List Tx
  | 0, _, tr => ([], tr)
  | fuel + 1, a, tr =>
    match scan_addr T tr a with
    | (reps, att, tr1) =>
      match scan_go T fuel (a + 1) tr1 with
      | (rest, tr2) => ((a, reps, att) :: rest, tr2)

/-- Source lines 260-319, `scan_pmbus`: sweep the inclusive address range. -/
def scan_pmbus (T : Transport) (start_addr end_addr : Nat) :
    List (Nat × List Report × Option Nat) × List Tx :=
  scan_go T (end_addr + 1 - start_addr) start_addr []

/-- Families a modification command can be issued for (`-PXE1610C`,
`-MP2955A`, `-TPS53679`/`-TPS53678`; the latter two run the same
procedure, source line 391). -/
inductive Family where
  | pxe1610c
  | mp2955a
  | tps53679
deriving DecidableEq, Repr

/-- Dispatch of source lines 383-393: the procedure run for a family. -/
def fam_proc (f : Family) (T : Transport) (tr : List Tx) (addr7 : Nat) : MRes × List Tx :=
  match f with
  | Family.pxe1610c => pxe1610_set_icc_max T tr addr7
  | Family.mp2955a => mp2955a_set_icc_max T tr addr7
  | Family.tps53679 => tps53679_set_icc_max T tr addr7

/-- Source lines 370-395, the family-command branch of `main`: run the
procedure at the first address and, when a second address was given, run
it there as well on the same bus; collects (address, result) pairs. -/
def main_family (T : Transport) (f : Family) (a1 : Nat) (a2 : Option Nat) :
    List (Nat × MRes) × List Tx :=
  match fam_proc f T [] a1 with
  | (r1, tr1) =>
    match a2 with
    | none => ([(a1, r1)], tr1)
    | some b =>
      match fam_proc f T tr1 b with
      | (r2, tr2) => ([(a1, r1), (b, r2)], tr2)

/-- `tr'` extends `tr` and every appended transaction satisfies `P`. -/
def ExtendsWithin (P : Tx → Prop) (tr tr' : List Tx) : Prop :=
  ∃ ext, tr' = tr ++ ext ∧ ∀ tx ∈ ext, P tx

/-- Transactions the MP2955A procedure can attempt at address `a`: the page-0
page-select, the two identification/ICC_MAX reads, the value write and
the store trigger. -/
def mpAllowed (a : Nat) : List Tx :=
  [Tx.w a [0x00, 0x00], Tx.w a [0xEF, 0xFF], Tx.w a [0x15],
   Tx.wr a 0xBF 2, Tx.wr a 0xEF 1]

/-- Transactions the TPS53679/78 procedure can attempt at address `a`. -/
def tpsAllowed (a : Nat) : List Tx :=
  [Tx.w a [0x00, 0x00], Tx.w a [0xDA, 0xFF, 0x00], Tx.w a [0x11],
   Tx.wr a 0xAD 2, Tx.wr a 0xDA 2]

/-- Characterization of scanner traffic: plain write transactions are
page-selects `[0x00, page]`; combined write-then-read transactions
(register reads) are unrestricted. -/
def pageSelectOnly : Tx → Prop := fun tx =>
  match tx with
  | Tx.w _ d => ∃ pg, d = [0x00, pg]
  | Tx.wr _ _ _ => True

/-- Transport on which every transaction fails (no device answers). -/
def T_c4 : Transport := fun _ _ => none

/-- Transport on which every transaction fails, used for the two-address
family-command evaluation. -/
def T_c10 : Transport := fun _ _ => none

/-- Transport on which every transaction fails, used for retry-budget
evaluations. -/
def T_c7 : Transport := fun _ _ => none

/-- Transport on which the page-0x20 page-select succeeds but every other
plain write fails; reads succeed. -/
def T_c7b : Transport := fun _ tx =>
  match tx with
  | Tx.w _ [0x00, 0x20] => some []
  | Tx.w _ _ => none
  | Tx.wr _ _ _ => some []

/-- Transport on which every transaction fails, used for the scan witness. -/
def T_c5 : Transport := fun _ _ => none

/-- Transport on which the page-0x20 page-select succeeds but the payload
write fails, used for the retry-restart witness. -/
def T_c6 : Transport := fun _ tx =>
  match tx with
  | Tx.w _ [0x00, 0x20] => some []
  | Tx.w _ _ => none
  | Tx.wr _ _ _ => some []

/-- The classification outcomes one scanner address can produce: nothing, or
a single family, where the Primarion-family report may be refined by the
PXE1610C confirmation on the same (Primarion) route. -/
def ScanReports (rs : List Report) : Prop :=
  rs = [] ∨ rs = [Report.isl69127] ∨ rs = [Report.tps53679] ∨ rs = [Report.tps53678] ∨
    rs = [Report.mp2955a] ∨ rs = [Report.primarion] ∨
    rs = [Report.primarion, Report.pxe1610c]

/-- Transport of a device answering the ISL69127 signature, for the scanner
ordering witness. -/
def T_c8 : Transport := fun _ tx =>
  match tx with
  | Tx.w _ _ => some []
  | Tx.wr _ 0xAD 5 => some [0x00, 0x00, 0x23, 0xD2, 0x49]
  | Tx.wr _ _ _ => some []

/-- Transport of a TPS53679 whose ICC_MAX already reads 0xFF in byte 0. -/
def T_c3 : Transport := fun _ tx =>
  match tx with
  | Tx.w _ _ => some []
  | Tx.wr _ 0xAD _ => some [0x01, 0x79]
  | Tx.wr _ 0xDA _ => some [0xFF, 0x00]
  | Tx.wr _ _ _ => some []

/-- Transport of an MP2955A whose ICC_MAX already reads 0xFF. -/
def T_c3w : Transport := fun _ tx =>
  match tx with
  | Tx.w _ _ => some []
  | Tx.wr _ 0xBF _ => some [0x55, 0x25]
  | Tx.wr _ 0xEF _ => some [0xFF]
  | Tx.wr _ _ _ => some []

/-- Transport of a healthy PXE1610C (ICC_MAX not yet 0xFF) on which only the
upload-trigger byte 0x34 is rejected; everything else succeeds. -/
def T_c2a : Transport := fun _ tx =>
  match tx with
  | Tx.w _ [0x34] => none
  | Tx.w _ _ => some []
  | Tx.wr _ 0xFD _ => some [0xB3]
  | Tx.wr _ 0x1A _ => some [0x00]
  | Tx.wr _ 0x32 _ => some [0x15, 0x04]
  | Tx.wr _ 0x73 _ => some [0x12, 0x00]
  | Tx.wr _ 0x82 _ => some [0x40, 0x01]
  | Tx.wr _ _ _ => some []

/-- Transport of a healthy PXE1610C on which only the remaining-attempts
read issued after the ICC_MAX value write fails; every write (including
unlock, value, trigger, clear) succeeds. -/
def T_c2b : Transport := fun tr tx =>
  match tx with
  | Tx.w _ _ => some []
  | Tx.wr _ 0xFD _ => some [0xB3]
  | Tx.wr _ 0x1A _ => some [0x00]
  | Tx.wr _ 0x32 _ => some [0x15, 0x04]
  | Tx.wr _ 0x73 _ => some [0x12, 0x00]
  | Tx.wr _ 0x82 _ =>
    if (Tx.w 0x58 [0x73, 0xFF, 0x00]) ∈ tr then none else some [0x40, 0x01]
  | Tx.wr _ _ _ => some []

/-- Transport on which only the SMB-password payload write is rejected. -/
def T_c2w : Transport := fun _ tx =>
  match tx with
  | Tx.w _ [0x27, 0x7C, 0xB3] => none
  | Tx.w _ _ => some []
  | Tx.wr _ _ _ => some []

/-- Transport of an MP2955A whose ICC_MAX already reads 0xFF, used to show
the writes issued before the skip decision. -/
def T_c1 : Transport := fun _ tx =>
  match tx with
  | Tx.w _ _ => some []
  | Tx.wr _ 0xBF _ => some [0x55, 0x25]
  | Tx.wr _ 0xEF _ => some [0xFF]
  | Tx.wr _ _ _ => some []

/-- Transport whose register-0xEF read answers 0xFF, for the skip-stage
witness. -/
def T_c1w : Transport := fun _ tx =>
  match tx with
  | Tx.w _ _ => some []
  | Tx.wr _ 0xEF _ => some [0xFF]
  | Tx.wr _ _ _ => some []

/-- The write primitive logs exactly its transaction, whether it succeeds or
fails. -/
theorem write_block_trace (T : Transport) (tr : List Tx) (a : Nat) (d : List Nat) :
    (write_block T tr a d).2 = tr ++ [Tx.w a d] := by
  unfold write_block
  cases T tr (Tx.w a d) <;> rfl

/-- The read primitive logs exactly its transaction, whether it succeeds or
fails. -/
theorem read_block_trace (T : Transport) (tr : List Tx) (a : Nat) (r n : Nat) :
    (read_block T tr a r n).2.2 = tr ++ [Tx.wr a r n] := by
  unfold read_block
  cases T tr (Tx.wr a r n) <;> rfl

/-- Trace shape of the paged-write retry loop: it only appends, appends at
most two transactions per attempt, and every appended transaction is the
page-select or the payload write. -/
theorem vrm_write_go_trace (T : Transport) (a : Nat) (p : Int) (pl : List Nat) :
    ∀ fuel tr, ∃ ext, (vrm_write_go T a p pl fuel tr).2 = tr ++ ext ∧
      ext.length ≤ 2 * fuel ∧
      ∀ tx ∈ ext, tx = Tx.w a [0x00, p.toNat] ∨ tx = Tx.w a pl := by
  intro fuel
  induction fuel with
  | zero =>
    intro tr
    exact ⟨[], by simp [vrm_write_go]⟩
  | succ f ih =>
    intro tr
    by_cases hp : (0 : Int) ≤ p
    · rcases hps : write_block T tr a [0x00, p.toNat] with ⟨rcp, tr1⟩
      have htr1 : tr1 = tr ++ [Tx.w a [0x00, p.toNat]] := by
        have h := write_block_trace T tr a [0x00, p.toNat]
        rw [hps] at h; exact h
      subst htr1
      by_cases hrcp : rcp = 0
      · rcases hpl : write_block T (tr ++ [Tx.w a [0x00, p.toNat]]) a pl with ⟨rc, tr2⟩
        have htr2 : tr2 = (tr ++ [Tx.w a [0x00, p.toNat]]) ++ [Tx.w a pl] := by
          have h := write_block_trace T (tr ++ [Tx.w a [0x00, p.toNat]]) a pl
          rw [hpl] at h; exact h
        subst htr2
        by_cases hrc : rc = 0
        · refine ⟨[Tx.w a [0x00, p.toNat], Tx.w a pl], ?_, ?_, ?_⟩
          · simp [vrm_write_go, hp, hps, hrcp, hpl, hrc]
          · simp only [List.length_cons, List.length_nil]
            omega
          · intro tx htx
            simp only [List.mem_cons, List.not_mem_nil, or_false] at htx
            rcases htx with rfl | rfl
            · exact Or.inl rfl
            · exact Or.inr rfl
        · rcases ih ((tr ++ [Tx.w a [0x00, p.toNat]]) ++ [Tx.w a pl]) with ⟨ext, hext, hlen, hmem⟩
          refine ⟨Tx.w a [0x00, p.toNat] :: Tx.w a pl :: ext, ?_, ?_, ?_⟩
          · simp only [vrm_write_go, hp, if_true, hps, hrcp, hpl, hrc, if_neg, ite_true,
              ite_false]
            rw [hext]
            simp
          · simp only [List.length_cons]
            omega
          · intro tx htx
            simp only [List.mem_cons] at htx
            rcases htx with rfl | rfl | h
            · exact Or.inl rfl
            · exact Or.inr rfl
            · exact hmem tx h
      · rcases ih (tr ++ [Tx.w a [0x00, p.toNat]]) with ⟨ext, hext, hlen, hmem⟩
        refine ⟨Tx.w a [0x00, p.toNat] :: ext, ?_, ?_, ?_⟩
        · simp only [vrm_write_go, hp, if_true, hps, hrcp, if_neg, ite_true, ite_false]
          rw [hext]
          simp
        · simp only [List.length_cons]
          omega
        · intro tx htx
          simp only [List.mem_cons] at htx
          rcases htx with rfl | h
          · exact Or.inl rfl
          · exact hmem tx h
    · rcases hpl : write_block T tr a pl with ⟨rc, tr2⟩
      have htr2 : tr2 = tr ++ [Tx.w a pl] := by
        have h := write_block_trace T tr a pl
        rw [hpl] at h; exact h
      subst htr2
      by_cases hrc : rc = 0
      · refine ⟨[Tx.w a pl], ?_, ?_, ?_⟩
        · simp [vrm_write_go, hp, hpl, hrc]
        · simp only [List.length_cons, List.length_nil]
          omega
        · intro tx htx
          simp only [List.mem_cons, List.not_mem_nil, or_false] at htx
          rcases htx with rfl
          exact Or.inr rfl
      · rcases ih (tr ++ [Tx.w a pl]) with ⟨ext, hext, hlen, hmem⟩
        refine ⟨Tx.w a pl :: ext, ?_, ?_, ?_⟩
        · simp only [vrm_write_go, hp, if_false, hpl, hrc, ite_false]
          rw [hext]
          simp
        · simp only [List.length_cons]
          omega
        · intro tx htx
          simp only [List.mem_cons] at htx
          rcases htx with rfl | h
          · exact Or.inr rfl
          · exact hmem tx h

/-- Trace shape of the paged-read retry loop (shared by `vrm_read_block` and
`scan_read_block`): it only appends, appends at most two transactions per
attempt, and every appended transaction is the page-select write or the
register read. -/
theorem vrm_read_go_trace (T : Transport) (a : Nat) (p : Int) (r n : Nat) :
    ∀ fuel tr, ∃ ext, (vrm_read_go T a p r n fuel tr).2.2 = tr ++ ext ∧
      ext.length ≤ 2 * fuel ∧
      ∀ tx ∈ ext, tx = Tx.w a [0x00, p.toNat] ∨ tx = Tx.wr a r n := by
  intro fuel
  induction fuel with
  | zero =>
    intro tr
    exact ⟨[], by simp [vrm_read_go]⟩
  | succ f ih =>
    intro tr
    by_cases hp : (0 : Int) ≤ p
    · rcases hps : write_block T tr a [0x00, p.toNat] with ⟨rcp, tr1⟩
      have htr1 : tr1 = tr ++ [Tx.w a [0x00, p.toNat]] := by
        have h := write_block_trace T tr a [0x00, p.toNat]
        rw [hps] at h; exact h
      subst htr1
      by_cases hrcp : rcp = 0
      · rcases hrd : read_block T (tr ++ [Tx.w a [0x00, p.toNat]]) a r n with ⟨rc, data, tr2⟩
        have htr2 : tr2 = (tr ++ [Tx.w a [0x00, p.toNat]]) ++ [Tx.wr a r n] := by
          have h := read_block_trace T (tr ++ [Tx.w a [0x00, p.toNat]]) a r n
          rw [hrd] at h; exact h
        subst htr2
        by_cases hrc : rc = 0
        · refine ⟨[Tx.w a [0x00, p.toNat], Tx.wr a r n], ?_, ?_, ?_⟩
          · simp [vrm_read_go, hp, hps, hrcp, hrd, hrc]
          · simp only [List.length_cons, List.length_nil]
            omega
          · intro tx htx
            simp only [List.mem_cons, List.not_mem_nil, or_false] at htx
            rcases htx with rfl | rfl
            · exact Or.inl rfl
            · exact Or.inr rfl
        · rcases ih ((tr ++ [Tx.w a [0x00, p.toNat]]) ++ [Tx.wr a r n]) with ⟨ext, hext, hlen, hmem⟩
          refine ⟨Tx.w a [0x00, p.toNat] :: Tx.wr a r n :: ext, ?_, ?_, ?_⟩
          · simp only [vrm_read_go, hp, if_true, hps, hrcp, hrd, hrc, if_neg, ite_true,
              ite_false]
            rw [hext]
            simp
          · simp only [List.length_cons]
            omega
          · intro tx htx
            simp only [List.mem_cons] at htx
            rcases htx with rfl | rfl | h
            · exact Or.inl rfl
            · exact Or.inr rfl
            · exact hmem tx h
      · rcases ih (tr ++ [Tx.w a [0x00, p.toNat]]) with ⟨ext, hext, hlen, hmem⟩
        refine ⟨Tx.w a [0x00, p.toNat] :: ext, ?_, ?_, ?_⟩
        · simp only [vrm_read_go, hp, if_true, hps, hrcp, if_neg, ite_true, ite_false]
          rw [hext]
          simp
        · simp only [List.length_cons]
          omega
        · intro tx htx
          simp only [List.mem_cons] at htx
          rcases htx with rfl | h
          · exact Or.inl rfl
          · exact hmem tx h
    · rcases hrd : read_block T tr a r n with ⟨rc, data, tr2⟩
      have htr2 : tr2 = tr ++ [Tx.wr a r n] := by
        have h := read_block_trace T tr a r n
        rw [hrd] at h; exact h
      subst htr2
      by_cases hrc : rc = 0
      · refine ⟨[Tx.wr a r n], ?_, ?_, ?_⟩
        · simp [vrm_read_go, hp, hrd, hrc]
        · simp only [List.length_cons, List.length_nil]
          omega
        · intro tx htx
          simp only [List.mem_cons, List.not_mem_nil, or_false] at htx
          rcases htx with rfl
          exact Or.inr rfl
      · rcases ih (tr ++ [Tx.wr a r n]) with ⟨ext, hext, hlen, hmem⟩
        refine ⟨Tx.wr a r n :: ext, ?_, ?_, ?_⟩
        · simp only [vrm_read_go, hp, if_false, hrd, hrc, ite_false]
          rw [hext]
          simp
        · simp only [List.length_cons]
          omega
        · intro tx htx
          simp only [List.mem_cons] at htx
          rcases htx with rfl | h
          · exact Or.inr rfl
          · exact hmem tx h

theorem extendsWithin_refl (P : Tx → Prop) (tr : List Tx) : ExtendsWithin P tr tr :=
  ⟨[], by simp⟩

theorem extendsWithin_trans {P : Tx → Prop} {tr1 tr2 tr3 : List Tx}
    (h1 : ExtendsWithin P tr1 tr2) (h2 : ExtendsWithin P tr2 tr3) :
    ExtendsWithin P tr1 tr3 := by
  rcases h1 with ⟨e1, rfl, hm1⟩
  rcases h2 with ⟨e2, rfl, hm2⟩
  refine ⟨e1 ++ e2, by simp, ?_⟩
  intro tx htx
  rcases List.mem_append.mp htx with h | h
  · exact hm1 tx h
  · exact hm2 tx h

theorem extendsWithin_mem {P : Tx → Prop} {tr tr' : List Tx} {tx : Tx}
    (h : ExtendsWithin P tr tr') (htx : tx ∈ tr') : tx ∈ tr ∨ P tx := by
  rcases h with ⟨ext, rfl, hm⟩
  rcases List.mem_append.mp htx with h | h
  · exact Or.inl h
  · exact Or.inr (hm tx h)

theorem write_block_extends {P : Tx → Prop} (T : Transport) (tr : List Tx) (a : Nat)
    (d : List Nat) (h : P (Tx.w a d)) :
    ExtendsWithin P tr (write_block T tr a d).2 := by
  refine ⟨[Tx.w a d], write_block_trace T tr a d, ?_⟩
  intro tx htx
  simp only [List.mem_cons, List.not_mem_nil, or_false] at htx
  rcases htx with rfl
  exact h

theorem read_block_extends {P : Tx → Prop} (T : Transport) (tr : List Tx) (a r n : Nat)
    (h : P (Tx.wr a r n)) :
    ExtendsWithin P tr (read_block T tr a r n).2.2 := by
  refine ⟨[Tx.wr a r n], read_block_trace T tr a r n, ?_⟩
  intro tx htx
  simp only [List.mem_cons, List.not_mem_nil, or_false] at htx
  rcases htx with rfl
  exact h

theorem vrm_write_go_extends {P : Tx → Prop} (T : Transport) (a : Nat) (p : Int)
    (pl : List Nat) (fuel : Nat) (tr : List Tx)
    (hps : P (Tx.w a [0x00, p.toNat])) (hpl : P (Tx.w a pl)) :
    ExtendsWithin P tr (vrm_write_go T a p pl fuel tr).2 := by
  rcases vrm_write_go_trace T a p pl fuel tr with ⟨ext, hext, -, hmem⟩
  refine ⟨ext, hext, ?_⟩
  intro tx htx
  rcases hmem tx htx with rfl | rfl
  · exact hps
  · exact hpl

theorem vrm_read_go_extends {P : Tx → Prop} (T : Transport) (a : Nat) (p : Int)
    (r n : Nat) (fuel : Nat) (tr : List Tx)
    (hps : P (Tx.w a [0x00, p.toNat])) (hrd : P (Tx.wr a r n)) :
    ExtendsWithin P tr (vrm_read_go T a p r n fuel tr).2.2 := by
  rcases vrm_read_go_trace T a p r n fuel tr with ⟨ext, hext, -, hmem⟩
  refine ⟨ext, hext, ?_⟩
  intro tx htx
  rcases hmem tx htx with rfl | rfl
  · exact hps
  · exact hrd

/-- With a non-sentinel page and at least one attempt left, the very first
transaction the paged-write loop emits is the page-select. -/
theorem vrm_write_go_first (T : Transport) (a : Nat) (p : Int) (pl : List Nat)
    (hp : 0 ≤ p) :
    ∀ fuel tr, 0 < fuel →
      ∃ ext, (vrm_write_go T a p pl fuel tr).2 = tr ++ Tx.w a [0x00, p.toNat] :: ext := by
  intro fuel tr hf
  cases fuel with
  | zero => omega
  | succ f =>
    rcases hps : write_block T tr a [0x00, p.toNat] with ⟨rcp, tr1⟩
    have htr1 : tr1 = tr ++ [Tx.w a [0x00, p.toNat]] := by
      have h := write_block_trace T tr a [0x00, p.toNat]
      rw [hps] at h; exact h
    subst htr1
    by_cases hrcp : rcp = 0
    · rcases hpl : write_block T (tr ++ [Tx.w a [0x00, p.toNat]]) a pl with ⟨rc, tr2⟩
      have htr2 : tr2 = (tr ++ [Tx.w a [0x00, p.toNat]]) ++ [Tx.w a pl] := by
        have h := write_block_trace T (tr ++ [Tx.w a [0x00, p.toNat]]) a pl
        rw [hpl] at h; exact h
      subst htr2
      by_cases hrc : rc = 0
      · refine ⟨[Tx.w a pl], ?_⟩
        simp [vrm_write_go, hp, hps, hrcp, hpl, hrc]
      · rcases vrm_write_go_trace T a p pl f ((tr ++ [Tx.w a [0x00, p.toNat]]) ++ [Tx.w a pl])
          with ⟨ext, hext, -, -⟩
        refine ⟨Tx.w a pl :: ext, ?_⟩
        simp only [vrm_write_go, hp, if_true, hps, hrcp, hpl, hrc, ite_true, ite_false]
        rw [hext]
        simp
    · rcases vrm_write_go_trace T a p pl f (tr ++ [Tx.w a [0x00, p.toNat]])
        with ⟨ext, hext, -, -⟩
      refine ⟨ext, ?_⟩
      simp only [vrm_write_go, hp, if_true, hps, hrcp, ite_true, ite_false]
      rw [hext]
      simp

/-- With a non-sentinel page and at least one attempt left, the very first
transaction the paged-read loop emits is the page-select. -/
theorem vrm_read_go_first (T : Transport) (a : Nat) (p : Int) (r n : Nat)
    (hp : 0 ≤ p) :
    ∀ fuel tr, 0 < fuel →
      ∃ ext, (vrm_read_go T a p r n fuel tr).2.2 = tr ++ Tx.w a [0x00, p.toNat] :: ext := by
  intro fuel tr hf
  cases fuel with
  | zero => omega
  | succ f =>
    rcases hps : write_block T tr a [0x00, p.toNat] with ⟨rcp, tr1⟩
    have htr1 : tr1 = tr ++ [Tx.w a [0x00, p.toNat]] := by
      have h := write_block_trace T tr a [0x00, p.toNat]
      rw [hps] at h; exact h
    subst htr1
    by_cases hrcp : rcp = 0
    · rcases hrd : read_block T (tr ++ [Tx.w a [0x00, p.toNat]]) a r n with ⟨rc, data, tr2⟩
      have htr2 : tr2 = (tr ++ [Tx.w a [0x00, p.toNat]]) ++ [Tx.wr a r n] := by
        have h := read_block_trace T (tr ++ [Tx.w a [0x00, p.toNat]]) a r n
        rw [hrd] at h; exact h
      subst htr2
      by_cases hrc : rc = 0
      · refine ⟨[Tx.wr a r n], ?_⟩
        simp [vrm_read_go, hp, hps, hrcp, hrd, hrc]
      · rcases vrm_read_go_trace T a p r n f ((tr ++ [Tx.w a [0x00, p.toNat]]) ++ [Tx.wr a r n])
          with ⟨ext, hext, -, -⟩
        refine ⟨Tx.wr a r n :: ext, ?_⟩
        simp only [vrm_read_go, hp, if_true, hps, hrcp, hrd, hrc, ite_true, ite_false]
        rw [hext]
        simp
    · rcases vrm_read_go_trace T a p r n f (tr ++ [Tx.w a [0x00, p.toNat]])
        with ⟨ext, hext, -, -⟩
      refine ⟨ext, ?_⟩
      simp only [vrm_read_go, hp, if_true, hps, hrcp, ite_true, ite_false]
      rw [hext]
      simp

theorem vrm_write_block_extends {P : Tx → Prop} (T : Transport) (tr : List Tx)
    (a : Nat) (p : Int) (pl : List Nat)
    (hps : P (Tx.w a [0x00, p.toNat])) (hpl : P (Tx.w a pl)) :
    ExtendsWithin P tr (vrm_write_block T tr a p pl).2 :=
  vrm_write_go_extends T a p pl RETRY_RW tr hps hpl

theorem vrm_read_block_extends {P : Tx → Prop} (T : Transport) (tr : List Tx)
    (a : Nat) (p : Int) (r n : Nat)
    (hps : P (Tx.w a [0x00, p.toNat])) (hrd : P (Tx.wr a r n)) :
    ExtendsWithin P tr (vrm_read_block T tr a p r n).2.2 :=
  vrm_read_go_extends T a p r n RETRY_RW tr hps hrd

theorem scan_read_block_extends {P : Tx → Prop} (T : Transport) (tr : List Tx)
    (a : Nat) (p : Int) (r n : Nat)
    (hps : P (Tx.w a [0x00, p.toNat])) (hrd : P (Tx.wr a r n)) :
    ExtendsWithin P tr (scan_read_block T tr a p r n).2.2 :=
  vrm_read_go_extends T a p r n RETRY_SCAN tr hps hrd

theorem mp_stage_store_extends (T : Transport) (tr : List Tx) (a : Nat) :
    ExtendsWithin (· ∈ mpAllowed a) tr (mp_stage_store T tr a).2 := by
  rcases hw : vrm_write_block T tr a 0x00 [0x15] with ⟨rc, tr2⟩
  have h := vrm_write_block_extends (P := (· ∈ mpAllowed a)) T tr a 0x00 [0x15]
    (by simp [mpAllowed]) (by simp [mpAllowed])
  rw [hw] at h
  unfold mp_stage_store
  rw [hw]
  by_cases hrc : rc = 0 <;> simp only [hrc, if_true, if_false, ite_true, ite_false] <;>
    simpa using h

theorem mp_stage_readback_extends (T : Transport) (tr : List Tx) (a : Nat) :
    ExtendsWithin (· ∈ mpAllowed a) tr (mp_stage_readback T tr a).2 := by
  have h1 := vrm_read_block_extends (P := (· ∈ mpAllowed a)) T tr a 0x00 0xEF 1
    (by simp [mpAllowed]) (by simp [mpAllowed])
  exact extendsWithin_trans h1 (mp_stage_store_extends T _ a)

theorem mp_stage_write_extends (T : Transport) (tr : List Tx) (a : Nat) :
    ExtendsWithin (· ∈ mpAllowed a) tr (mp_stage_write T tr a).2 := by
  rcases hw : vrm_write_block T tr a 0x00 [0xEF, 0xFF] with ⟨rc, tr2⟩
  have h := vrm_write_block_extends (P := (· ∈ mpAllowed a)) T tr a 0x00 [0xEF, 0xFF]
    (by simp [mpAllowed]) (by simp [mpAllowed])
  rw [hw] at h
  simp only at h
  unfold mp_stage_write
  rw [hw]
  by_cases hrc : rc = 0
  · simp only [hrc, ite_true]
    exact extendsWithin_trans h (mp_stage_readback_extends T tr2 a)
  · simp only [hrc, ite_false]
    exact h

theorem mp2955a_modify_extends (T : Transport) (tr : List Tx) (a : Nat) :
    ExtendsWithin (· ∈ mpAllowed a) tr (mp2955a_modify T tr a).2 := by
  rcases hr : vrm_read_block T tr a 0x00 0xEF 1 with ⟨rc, v, tr2⟩
  have h := vrm_read_block_extends (P := (· ∈ mpAllowed a)) T tr a 0x00 0xEF 1
    (by simp [mpAllowed]) (by simp [mpAllowed])
  rw [hr] at h
  simp only at h
  unfold mp2955a_modify
  rw [hr]
  by_cases hrc : rc = 0
  · by_cases hv : v.getD 0 0 = 0xFF
    · simp only [hrc, hv, ite_true]
      exact h
    · simp only [hrc, hv, ite_true, ite_false]
      exact extendsWithin_trans h (mp_stage_write_extends T tr2 a)
  · simp only [hrc, ite_false]
    exact h

theorem mp2955a_trace_extends (T : Transport) (tr : List Tx) (a : Nat) :
    ExtendsWithin (· ∈ mpAllowed a) tr (mp2955a_set_icc_max T tr a).2 := by
  rcases hr : vrm_read_block T tr a 0x00 0xBF 2 with ⟨rc, bf, tr1⟩
  have h := vrm_read_block_extends (P := (· ∈ mpAllowed a)) T tr a 0x00 0xBF 2
    (by simp [mpAllowed]) (by simp [mpAllowed])
  rw [hr] at h
  simp only at h
  unfold mp2955a_set_icc_max
  rw [hr]
  by_cases hrc : rc = 0
  · by_cases hbf : bf.getD 0 0 = 0x55 ∧ bf.getD 1 0 = 0x25
    · simp only [hrc, hbf, ite_true, and_self]
      exact extendsWithin_trans h (mp2955a_modify_extends T tr1 a)
    · simp only [hrc, hbf, ite_true, ite_false]
      exact h
  · simp only [hrc, ite_false]
    exact h

theorem tps_stage_store_extends (T : Transport) (tr : List Tx) (a : Nat) :
    ExtendsWithin (· ∈ tpsAllowed a) tr (tps_stage_store T tr a).2 := by
  rcases hw : vrm_write_block T tr a 0x00 [0x11] with ⟨rc, tr2⟩
  have h := vrm_write_block_extends (P := (· ∈ tpsAllowed a)) T tr a 0x00 [0x11]
    (by simp [tpsAllowed]) (by simp [tpsAllowed])
  rw [hw] at h
  unfold tps_stage_store
  rw [hw]
  by_cases hrc : rc = 0 <;> simp only [hrc, ite_true, ite_false] <;> simpa using h

theorem tps_stage_readback_extends (T : Transport) (tr : List Tx) (a : Nat) :
    ExtendsWithin (· ∈ tpsAllowed a) tr (tps_stage_readback T tr a).2 := by
  have h1 := vrm_read_block_extends (P := (· ∈ tpsAllowed a)) T tr a 0x00 0xDA 2
    (by simp [tpsAllowed]) (by simp [tpsAllowed])
  exact extendsWithin_trans h1 (tps_stage_store_extends T _ a)

theorem tps_stage_write_extends (T : Transport) (tr : List Tx) (a : Nat) :
    ExtendsWithin (· ∈ tpsAllowed a) tr (tps_stage_write T tr a).2 := by
  rcases hw : vrm_write_block T tr a 0x00 [0xDA, 0xFF, 0x00] with ⟨rc, tr2⟩
  have h := vrm_write_block_extends (P := (· ∈ tpsAllowed a)) T tr a 0x00 [0xDA, 0xFF, 0x00]
    (by simp [tpsAllowed]) (by simp [tpsAllowed])
  rw [hw] at h
  simp only at h
  unfold tps_stage_write
  rw [hw]
  by_cases hrc : rc = 0
  · simp only [hrc, ite_true]
    exact extendsWithin_trans h (tps_stage_readback_extends T tr2 a)
  · simp only [hrc, ite_false]
    exact h

theorem tps_modify_extends (T : Transport) (tr : List Tx) (a : Nat) :
    ExtendsWithin (· ∈ tpsAllowed a) tr (tps_modify T tr a).2 := by
  rcases hr : vrm_read_block T tr a 0x00 0xDA 2 with ⟨rc, da, tr2⟩
  have h := vrm_read_block_extends (P := (· ∈ tpsAllowed a)) T tr a 0x00 0xDA 2
    (by simp [tpsAllowed]) (by simp [tpsAllowed])
  rw [hr] at h
  simp only at h
  unfold tps_modify
  rw [hr]
  by_cases hrc : rc = 0
  · by_cases hda : da.getD 0 0 = 0xFF
    · simp only [hrc, hda, ite_true]
      exact h
    · simp only [hrc, hda, ite_true, ite_false]
      exact extendsWithin_trans h (tps_stage_write_extends T tr2 a)
  · simp only [hrc, ite_false]
    exact h

theorem tps53679_trace_extends (T : Transport) (tr : List Tx) (a : Nat) :
    ExtendsWithin (· ∈ tpsAllowed a) tr (tps53679_set_icc_max T tr a).2 := by
  rcases hr : vrm_read_block T tr a 0x00 0xAD 2 with ⟨rc, ad, tr1⟩
  have h := vrm_read_block_extends (P := (· ∈ tpsAllowed a)) T tr a 0x00 0xAD 2
    (by simp [tpsAllowed]) (by simp [tpsAllowed])
  rw [hr] at h
  simp only at h
  unfold tps53679_set_icc_max
  rw [hr]
  by_cases hrc : rc = 0
  · by_cases had : ad.getD 0 0 = 0x01 ∧ (ad.getD 1 0 = 0x79 ∨ ad.getD 1 0 = 0x78)
    · simp only [hrc, had, ite_true, and_self]
      exact extendsWithin_trans h (tps_modify_extends T tr1 a)
    · simp only [hrc, had, ite_true, ite_false]
      exact h
  · simp only [hrc, ite_false]
    exact h

theorem scan_primarion_extends (T : Transport) (tr : List Tx) (a : Nat) :
    ExtendsWithin pageSelectOnly tr (scan_primarion T tr a).2.2 := by
  rcases h4 : scan_read_block T tr a 0x00 0xFD 1 with ⟨rc4, fd, tr4⟩
  have e4 := scan_read_block_extends (P := pageSelectOnly) T tr a 0x00 0xFD 1
    ⟨_, rfl⟩ trivial
  rw [h4] at e4
  simp only at e4
  unfold scan_primarion
  rw [h4]
  dsimp only
  by_cases c4 : rc4 = 0 ∧ fd.getD 0 0 = 0xB3
  · rw [if_pos c4]
    rcases h5 : scan_read_block T tr4 a 0x4F 0x1A 1 with ⟨rc5, ia, tr5⟩
    have e5 := scan_read_block_extends (P := pageSelectOnly) T tr4 a 0x4F 0x1A 1
      ⟨_, rfl⟩ trivial
    rw [h5] at e5
    simp only at e5
    dsimp only
    by_cases c5 : rc5 = 0 ∧ ia.getD 0 0 = 0x00
    · rw [if_pos c5]
      rcases h6 : scan_read_block T tr5 a 0x4F 0x32 2 with ⟨rc6, x32, tr6⟩
      have e6 := scan_read_block_extends (P := pageSelectOnly) T tr5 a 0x4F 0x32 2
        ⟨_, rfl⟩ trivial
      rw [h6] at e6
      simp only at e6
      dsimp only
      by_cases c6 : rc6 = 0 ∧ x32.getD 0 0 = 0x15 ∧ x32.getD 1 0 = 0x04
      · rw [if_pos c6]
        rcases h7 : scan_read_block T tr6 a 0x50 0x82 2 with ⟨rc7, x82, tr7⟩
        have e7 := scan_read_block_extends (P := pageSelectOnly) T tr6 a 0x50 0x82 2
          ⟨_, rfl⟩ trivial
        rw [h7] at e7
        simp only at e7
        dsimp only
        rcases h8 : scan_read_block T tr7 a 0x20 0x73 2 with ⟨rc8, icc, tr8⟩
        have e8 := scan_read_block_extends (P := pageSelectOnly) T tr7 a 0x20 0x73 2
          ⟨_, rfl⟩ trivial
        rw [h8] at e8
        simp only at e8
        dsimp only
        exact extendsWithin_trans
          (extendsWithin_trans (extendsWithin_trans (extendsWithin_trans e4 e5) e6) e7) e8
      · rw [if_neg c6]
        exact extendsWithin_trans (extendsWithin_trans e4 e5) e6
    · rw [if_neg c5]
      exact extendsWithin_trans e4 e5
  · rw [if_neg c4]
    exact e4

theorem scan_mp_extends (T : Transport) (tr : List Tx) (a : Nat) :
    ExtendsWithin pageSelectOnly tr (scan_mp T tr a).2.2 := by
  rcases h3 : scan_read_block T tr a 0x00 0xBF 2 with ⟨rc3, bf, tr3⟩
  have e3 := scan_read_block_extends (P := pageSelectOnly) T tr a 0x00 0xBF 2
    ⟨_, rfl⟩ trivial
  rw [h3] at e3
  simp only at e3
  unfold scan_mp
  rw [h3]
  dsimp only
  by_cases c3 : rc3 = 0 ∧ bf.getD 0 0 = 0x55 ∧ bf.getD 1 0 = 0x25
  · rw [if_pos c3]
    exact e3
  · rw [if_neg c3]
    exact extendsWithin_trans e3 (scan_primarion_extends T tr3 a)

theorem scan_tps_extends (T : Transport) (tr : List Tx) (a : Nat) :
    ExtendsWithin pageSelectOnly tr (scan_tps T tr a).2.2 := by
  rcases h2 : scan_read_block T tr a 0x00 0xAD 2 with ⟨rc2, ad2, tr2⟩
  have e2 := scan_read_block_extends (P := pageSelectOnly) T tr a 0x00 0xAD 2
    ⟨_, rfl⟩ trivial
  rw [h2] at e2
  simp only at e2
  unfold scan_tps
  rw [h2]
  dsimp only
  by_cases c2a : rc2 = 0 ∧ ad2.getD 0 0 = 0x01 ∧ ad2.getD 1 0 = 0x79
  · rw [if_pos c2a]
    exact e2
  · rw [if_neg c2a]
    by_cases c2b : rc2 = 0 ∧ ad2.getD 0 0 = 0x01 ∧ ad2.getD 1 0 = 0x78
    · rw [if_pos c2b]
      exact e2
    · rw [if_neg c2b]
      exact extendsWithin_trans e2 (scan_mp_extends T tr2 a)

theorem scan_isl_extends (T : Transport) (tr : List Tx) (a : Nat) :
    ExtendsWithin pageSelectOnly tr (scan_isl T tr a).2.2 := by
  rcases h1 : scan_read_block T tr a 0x00 0xAD 5 with ⟨rc1, ad5, tr1⟩
  have e1 := scan_read_block_extends (P := pageSelectOnly) T tr a 0x00 0xAD 5
    ⟨_, rfl⟩ trivial
  rw [h1] at e1
  simp only at e1
  unfold scan_isl
  rw [h1]
  dsimp only
  by_cases c1 : rc1 = 0 ∧ ad5.length = 5 ∧ ad5.getD 4 0 = 0x49 ∧ ad5.getD 3 0 = 0xD2 ∧
      ad5.getD 2 0 = 0x23 ∧ ad5.getD 1 0 = 0x00
  · rw [if_pos c1]
    exact e1
  · rw [if_neg c1]
    exact extendsWithin_trans e1 (scan_tps_extends T tr1 a)

theorem scan_addr_extends (T : Transport) (tr : List Tx) (a : Nat) :
    ExtendsWithin pageSelectOnly tr (scan_addr T tr a).2.2 := by
  rcases h0 : read_block T tr a 0x00 1 with ⟨rcp, d0, tr0⟩
  have e0 := read_block_extends (P := pageSelectOnly) T tr a 0x00 1 trivial
  rw [h0] at e0
  simp only at e0
  unfold scan_addr
  rw [h0]
  dsimp only
  by_cases c0 : rcp = 0
  · rw [if_pos c0]
    exact extendsWithin_trans e0 (scan_isl_extends T tr0 a)
  · rw [if_neg c0]
    exact e0

theorem scan_go_extends (T : Transport) :
    ∀ fuel a tr, ExtendsWithin pageSelectOnly tr (scan_go T fuel a tr).2 := by
  intro fuel
  induction fuel with
  | zero =>
    intro a tr
    exact extendsWithin_refl pageSelectOnly tr
  | succ f ih =>
    intro a tr
    rcases ha : scan_addr T tr a with ⟨reps, att, tr1⟩
    have h1 := scan_addr_extends T tr a
    rw [ha] at h1
    simp only at h1
    rcases hg : scan_go T f (a + 1) tr1 with ⟨rest, tr2⟩
    have h2 := ih (a + 1) tr1
    rw [hg] at h2
    simp only at h2
    unfold scan_go
    rw [ha]
    dsimp only
    rw [hg]
    dsimp only
    exact extendsWithin_trans h1 h2

/-- The MP2955A procedure's first transaction is always the page-0
page-select write of its identification read. -/
theorem mp2955a_first (T : Transport) (tr : List Tx) (a : Nat) :
    ∃ ext, (mp2955a_set_icc_max T tr a).2 = tr ++ Tx.w a [0x00, 0x00] :: ext := by
  rcases hr : vrm_read_block T tr a 0x00 0xBF 2 with ⟨rc, bf, tr1⟩
  have hfirst : ∃ e, tr1 = tr ++ Tx.w a [0x00, 0x00] :: e := by
    rcases vrm_read_go_first T a 0x00 0xBF 2 (by norm_num) RETRY_RW tr (by decide)
      with ⟨e, he⟩
    have heq : (vrm_read_block T tr a 0x00 0xBF 2).2.2 = tr1 := by rw [hr]
    rw [vrm_read_block] at heq
    rw [heq] at he
    exact ⟨e, by simpa using he⟩
  rcases hfirst with ⟨e, he⟩
  unfold mp2955a_set_icc_max
  rw [hr]
  dsimp only
  by_cases hrc : rc = 0
  · by_cases hbf : bf.getD 0 0 = 0x55 ∧ bf.getD 1 0 = 0x25
    · rw [if_pos hrc, if_pos hbf]
      rcases mp2955a_modify_extends T tr1 a with ⟨e2, he2, -⟩
      refine ⟨e ++ e2, ?_⟩
      rw [he2, he]
      simp
    · rw [if_pos hrc, if_neg hbf]
      exact ⟨e, he⟩
  · rw [if_neg hrc]
    exact ⟨e, he⟩

/-- The TPS53679/78 procedure's first transaction is always the page-0
page-select write of its identification read. -/
theorem tps53679_first (T : Transport) (tr : List Tx) (a : Nat) :
    ∃ ext, (tps53679_set_icc_max T tr a).2 = tr ++ Tx.w a [0x00, 0x00] :: ext := by
  rcases hr : vrm_read_block T tr a 0x00 0xAD 2 with ⟨rc, ad, tr1⟩
  have hfirst : ∃ e, tr1 = tr ++ Tx.w a [0x00, 0x00] :: e := by
    rcases vrm_read_go_first T a 0x00 0xAD 2 (by norm_num) RETRY_RW tr (by decide)
      with ⟨e, he⟩
    have heq : (vrm_read_block T tr a 0x00 0xAD 2).2.2 = tr1 := by rw [hr]
    rw [vrm_read_block] at heq
    rw [heq] at he
    exact ⟨e, by simpa using he⟩
  rcases hfirst with ⟨e, he⟩
  unfold tps53679_set_icc_max
  rw [hr]
  dsimp only
  by_cases hrc : rc = 0
  · by_cases had : ad.getD 0 0 = 0x01 ∧ (ad.getD 1 0 = 0x79 ∨ ad.getD 1 0 = 0x78)
    · rw [if_pos hrc, if_pos had]
      rcases tps_modify_extends T tr1 a with ⟨e2, he2, -⟩
      refine ⟨e ++ e2, ?_⟩
      rw [he2, he]
      simp
    · rw [if_pos hrc, if_neg had]
      exact ⟨e, he⟩
  · rw [if_neg hrc]
    exact ⟨e, he⟩

/-- Claim C9: the remaining-attempts decode computed by the program (lines
132-133 and 312-313, `decode_attempts`) agrees with the closed form
`((byte1 << 2) | (byte0 >> 6)) & 0xFF` for every pair of bytes: the
inner `& 0xFF` applied to `byte1 << 2` is absorbed by the outer mask. -/
theorem C9_decode_attempts (b0 b1 : Nat) :
    decode_attempts b0 b1 = ((b1 <<< 2) ||| (b0 >>> 6)) &&& 0xFF := by
  unfold decode_attempts
  apply Nat.eq_of_testBit_eq
  intro i
  simp only [Nat.testBit_and, Nat.testBit_or]
  cases h1 : (b1 <<< 2).testBit i <;> cases h2 : (b0 >>> 6).testBit i <;>
    cases h3 : Nat.testBit 0xFF i <;> simp

/-- In the transaction-level model, a family command given two addresses
runs the procedure on the first address and then unconditionally on the
second, whatever the first run's outcome was: the collected (address,
result) list is always the two runs in order, the second computed by
running the family procedure at the second address on the same bus.
Caveat: this universal statement lives in the model that collapses the
line-91 ValueError path of `pxe1610_detect` into the intended Error
return; on the real program, a PXE1610C first run whose initial
identification read fails crashes before the second address is reached
(claims C4 and C10). -/
theorem main_family_second_address_model (T : Transport) (f : Family) (a1 a2 : Nat) :
    (main_family T f a1 (some a2)).1 =
      [(a1, (fam_proc f T [] a1).1),
       (a2, (fam_proc f T (fam_proc f T [] a1).2 a2).1)] := by
  unfold main_family
  rcases h1 : fam_proc f T [] a1 with ⟨r1, tr1⟩
  dsimp only

/-- Claim C10 (intended behaviour at the failing input): on a dead bus the
PXE1610C family command with two addresses runs the procedure at both
addresses — the first run ends in Error after its four failed
page-select attempts at 0x58 and the second run at 0x5C still happens,
unaffected.  In the real program this very input crashes instead: the
first run's failed identification read raises the uncaught ValueError
of source line 91, so the second address is never reached; this theorem
evaluates the model in which that crash is the Error return the
surrounding code (and the claim) intends.  For the MP2955A and TPS
families, and for PXE1610C whenever the first identification read
succeeds, the real program matches the claim. -/
theorem C10_failing_input_eval :
    main_family T_c10 Family.pxe1610c 0x58 (some 0x5C) =
      ([(0x58, MRes.error), (0x5C, MRes.error)],
       [Tx.w 0x58 [0x00, 0x00], Tx.w 0x58 [0x00, 0x00],
        Tx.w 0x58 [0x00, 0x00], Tx.w 0x58 [0x00, 0x00],
        Tx.w 0x5C [0x00, 0x00], Tx.w 0x5C [0x00, 0x00],
        Tx.w 0x5C [0x00, 0x00], Tx.w 0x5C [0x00, 0x00]]) := by
  decide

/-- Claim C7: the retry budget is exactly 4 for paged writes/reads and
exactly 2 for scan-probe reads.  Exhausted fuel returns failure with the
log unchanged (no further transport calls); every run makes at most
2 calls per budgeted attempt; and on an always-failing transport the
paged write makes exactly its 4 page-select attempts (8 calls when the
page-select succeeds and the payload fails each time), the scan read
exactly 2. -/
theorem C7_retry_budgets :
    (RETRY_RW = 4 ∧ RETRY_SCAN = 2) ∧
    (∀ (T : Transport) (a : Nat) (p : Int) (pl : List Nat) (tr : List Tx),
        vrm_write_go T a p pl 0 tr = (-1, tr)) ∧
    (∀ (T : Transport) (a : Nat) (p : Int) (r n : Nat) (tr : List Tx),
        vrm_read_go T a p r n 0 tr = (-1, [], tr)) ∧
    (∀ (T : Transport) (tr : List Tx) (a : Nat) (p : Int) (pl : List Nat),
        (vrm_write_block T tr a p pl).2.length ≤ tr.length + 2 * RETRY_RW) ∧
    (∀ (T : Transport) (tr : List Tx) (a : Nat) (p : Int) (r n : Nat),
        (vrm_read_block T tr a p r n).2.2.length ≤ tr.length + 2 * RETRY_RW) ∧
    (∀ (T : Transport) (tr : List Tx) (a : Nat) (p : Int) (r n : Nat),
        (scan_read_block T tr a p r n).2.2.length ≤ tr.length + 2 * RETRY_SCAN) ∧
    vrm_write_block T_c7 [] 0x58 0x20 [0x73, 0xFF, 0x00] =
      (-1, [Tx.w 0x58 [0x00, 0x20], Tx.w 0x58 [0x00, 0x20],
            Tx.w 0x58 [0x00, 0x20], Tx.w 0x58 [0x00, 0x20]]) ∧
    vrm_write_block T_c7b [] 0x58 0x20 [0x73, 0xFF, 0x00] =
      (-1, [Tx.w 0x58 [0x00, 0x20], Tx.w 0x58 [0x73, 0xFF, 0x00],
            Tx.w 0x58 [0x00, 0x20], Tx.w 0x58 [0x73, 0xFF, 0x00],
            Tx.w 0x58 [0x00, 0x20], Tx.w 0x58 [0x73, 0xFF, 0x00],
            Tx.w 0x58 [0x00, 0x20], Tx.w 0x58 [0x73, 0xFF, 0x00]]) ∧
    scan_read_block T_c7 [] 0x58 0x00 0xAD 2 =
      (-1, [], [Tx.w 0x58 [0x00, 0x00], Tx.w 0x58 [0x00, 0x00]]) := by
  refine ⟨⟨rfl, rfl⟩, fun T a p pl tr => rfl, fun T a p r n tr => rfl, ?_, ?_, ?_,
    by decide, by decide, by decide⟩
  · intro T tr a p pl
    rcases vrm_write_go_trace T a p pl RETRY_RW tr with ⟨ext, hext, hlen, -⟩
    rw [vrm_write_block, hext]
    simp only [List.length_append]
    omega
  · intro T tr a p r n
    rcases vrm_read_go_trace T a p r n RETRY_RW tr with ⟨ext, hext, hlen, -⟩
    rw [vrm_read_block, hext]
    simp only [List.length_append]
    omega
  · intro T tr a p r n
    rcases vrm_read_go_trace T a p r n RETRY_SCAN tr with ⟨ext, hext, hlen, -⟩
    rw [scan_read_block, hext]
    simp only [List.length_append]
    omega

/-- Claim C5: the bus scanner emits plain write transactions only of the
page-select form `[0x00, page]` (it never writes any other register);
all other traffic consists of register-read transactions. -/
theorem C5_scan_writes_only_pages (T : Transport) (s e : Nat) (tx : Tx)
    (htx : tx ∈ (scan_pmbus T s e).2) : pageSelectOnly tx := by
  have h := scan_go_extends T (e + 1 - s) s []
  rw [scan_pmbus] at htx
  rcases extendsWithin_mem h htx with h0 | h0
  · simp at h0
  · exact h0

/-- Claim C5 witness: a concrete scan of the one-address range `[0x10, 0x10]`
on a dead bus emits exactly the presence probe, and the theorem applies
to it. -/
theorem C5_scan_writes_only_pages_witness :
    Tx.wr 0x10 0x00 1 ∈ (scan_pmbus T_c5 0x10 0x10).2 ∧
      pageSelectOnly (Tx.wr 0x10 0x00 1) :=
  ⟨by decide, C5_scan_writes_only_pages T_c5 0x10 0x10 (Tx.wr 0x10 0x00 1) (by decide)⟩

/-- Claim C4 (intended behaviour at the failing input): on a bus where every
transaction fails, the PXE1610C procedure's first identification read
exhausts its four page-select attempts and the procedure ends in the
error outcome having issued no transaction beyond those four page-select
attempts.  In the Python source this very input instead raises
`ValueError` at line 91: the f-string formats the fallback string
`'??'` with format spec `02X`, so the function never returns its
documented `-1`. -/
theorem C4_first_read_failure :
    pxe1610_set_icc_max T_c4 [] 0x58 =
      (MRes.error, [Tx.w 0x58 [0x00, 0x00], Tx.w 0x58 [0x00, 0x00],
                    Tx.w 0x58 [0x00, 0x00], Tx.w 0x58 [0x00, 0x00]]) := by
  decide

/-- Claim C6: for a non-sentinel page, when an attempt's page-select
transaction succeeds but its payload transaction (write, resp. read)
fails with retry budget left, the operation recurses on the remaining
budget with both transactions logged, and the next attempt begins by
re-issuing the very same page-select: retries restart from the
page-select step. -/
theorem C6_retry_restarts_from_page_select :
    (∀ (T : Transport) (a : Nat) (p : Int) (pl : List Nat) (fuel : Nat) (tr : List Tx),
       0 ≤ p →
       T tr (Tx.w a [0x00, p.toNat]) ≠ none →
       T (tr ++ [Tx.w a [0x00, p.toNat]]) (Tx.w a pl) = none →
       vrm_write_go T a p pl (fuel + 1) tr =
         vrm_write_go T a p pl fuel (tr ++ [Tx.w a [0x00, p.toNat], Tx.w a pl]) ∧
       (0 < fuel → ∃ ext,
         (vrm_write_go T a p pl fuel (tr ++ [Tx.w a [0x00, p.toNat], Tx.w a pl])).2 =
           tr ++ Tx.w a [0x00, p.toNat] :: Tx.w a pl ::
             Tx.w a [0x00, p.toNat] :: ext)) ∧
    (∀ (T : Transport) (a : Nat) (p : Int) (r n : Nat) (fuel : Nat) (tr : List Tx),
       0 ≤ p →
       T tr (Tx.w a [0x00, p.toNat]) ≠ none →
       T (tr ++ [Tx.w a [0x00, p.toNat]]) (Tx.wr a r n) = none →
       vrm_read_go T a p r n (fuel + 1) tr =
         vrm_read_go T a p r n fuel (tr ++ [Tx.w a [0x00, p.toNat], Tx.wr a r n]) ∧
       (0 < fuel → ∃ ext,
         (vrm_read_go T a p r n fuel (tr ++ [Tx.w a [0x00, p.toNat], Tx.wr a r n])).2.2 =
           tr ++ Tx.w a [0x00, p.toNat] :: Tx.wr a r n ::
             Tx.w a [0x00, p.toNat] :: ext)) := by
  constructor
  · intro T a p pl fuel tr hp hps hpl
    have h1 : write_block T tr a [0x00, p.toNat] = (0, tr ++ [Tx.w a [0x00, p.toNat]]) := by
      unfold write_block
      cases hs : T tr (Tx.w a [0x00, p.toNat]) with
      | none => exact absurd hs hps
      | some bs => rfl
    have h2 : write_block T (tr ++ [Tx.w a [0x00, p.toNat]]) a pl =
        (-1, tr ++ [Tx.w a [0x00, p.toNat], Tx.w a pl]) := by
      unfold write_block
      rw [hpl]
      simp
    constructor
    · simp only [vrm_write_go]
      rw [if_pos hp, h1]
      dsimp only
      rw [if_pos (show (0 : Int) = 0 from rfl), h2]
      dsimp only
      rw [if_neg (by decide : ¬((-1 : Int) = 0))]
    · intro hf
      rcases vrm_write_go_first T a p pl hp fuel
        (tr ++ [Tx.w a [0x00, p.toNat], Tx.w a pl]) hf with ⟨ext, he⟩
      refine ⟨ext, ?_⟩
      rw [he]
      simp
  · intro T a p r n fuel tr hp hps hrd
    have h1 : write_block T tr a [0x00, p.toNat] = (0, tr ++ [Tx.w a [0x00, p.toNat]]) := by
      unfold write_block
      cases hs : T tr (Tx.w a [0x00, p.toNat]) with
      | none => exact absurd hs hps
      | some bs => rfl
    have h2 : read_block T (tr ++ [Tx.w a [0x00, p.toNat]]) a r n =
        (-1, [], tr ++ [Tx.w a [0x00, p.toNat], Tx.wr a r n]) := by
      unfold read_block
      rw [hrd]
      simp
    constructor
    · simp only [vrm_read_go]
      rw [if_pos hp, h1]
      dsimp only
      rw [if_pos (show (0 : Int) = 0 from rfl), h2]
      dsimp only
      rw [if_neg (by decide : ¬((-1 : Int) = 0))]
    · intro hf
      rcases vrm_read_go_first T a p r n hp fuel
        (tr ++ [Tx.w a [0x00, p.toNat], Tx.wr a r n]) hf with ⟨ext, he⟩
      refine ⟨ext, ?_⟩
      rw [he]
      simp

/-- Claim C6 witness: a concrete transport where the page-0x20 page-select
succeeds and the ICC_MAX payload write always fails; one failed attempt
with budget 3 left reduces to the loop on the extended log, whose next
transaction is again the page-select. -/
theorem C6_retry_restarts_witness :
    vrm_write_go T_c6 0x58 0x20 [0x73, 0xFF, 0x00] 3 [] =
      vrm_write_go T_c6 0x58 0x20 [0x73, 0xFF, 0x00] 2
        [Tx.w 0x58 [0x00, 0x20], Tx.w 0x58 [0x73, 0xFF, 0x00]] ∧
    (∃ ext,
      (vrm_write_go T_c6 0x58 0x20 [0x73, 0xFF, 0x00] 2
          [Tx.w 0x58 [0x00, 0x20], Tx.w 0x58 [0x73, 0xFF, 0x00]]).2 =
        [] ++ Tx.w 0x58 [0x00, (0x20 : Int).toNat] :: Tx.w 0x58 [0x73, 0xFF, 0x00] ::
          Tx.w 0x58 [0x00, (0x20 : Int).toNat] :: ext) := by
  have h := C6_retry_restarts_from_page_select.1 T_c6 0x58 0x20 [0x73, 0xFF, 0x00] 2 []
    (by norm_num) (by decide) (by decide)
  exact ⟨h.1, by simpa using h.2 (by norm_num)⟩

theorem scan_primarion_reports (T : Transport) (tr : List Tx) (a : Nat) :
    ScanReports (scan_primarion T tr a).1 := by
  unfold scan_primarion
  rcases h4 : scan_read_block T tr a 0x00 0xFD 1 with ⟨rc4, fd, tr4⟩
  dsimp only
  by_cases c4 : rc4 = 0 ∧ fd.getD 0 0 = 0xB3
  · rw [if_pos c4]
    rcases h5 : scan_read_block T tr4 a 0x4F 0x1A 1 with ⟨rc5, ia, tr5⟩
    dsimp only
    by_cases c5 : rc5 = 0 ∧ ia.getD 0 0 = 0x00
    · rw [if_pos c5]
      rcases h6 : scan_read_block T tr5 a 0x4F 0x32 2 with ⟨rc6, x32, tr6⟩
      dsimp only
      by_cases c6 : rc6 = 0 ∧ x32.getD 0 0 = 0x15 ∧ x32.getD 1 0 = 0x04
      · rw [if_pos c6]
        rcases h7 : scan_read_block T tr6 a 0x50 0x82 2 with ⟨rc7, x82, tr7⟩
        dsimp only
        rcases h8 : scan_read_block T tr7 a 0x20 0x73 2 with ⟨rc8, icc, tr8⟩
        simp [ScanReports]
      · rw [if_neg c6]
        simp [ScanReports]
    · rw [if_neg c5]
      simp [ScanReports]
  · rw [if_neg c4]
    simp [ScanReports]

theorem scan_mp_reports (T : Transport) (tr : List Tx) (a : Nat) :
    ScanReports (scan_mp T tr a).1 := by
  unfold scan_mp
  rcases h3 : scan_read_block T tr a 0x00 0xBF 2 with ⟨rc3, bf, tr3⟩
  dsimp only
  by_cases c3 : rc3 = 0 ∧ bf.getD 0 0 = 0x55 ∧ bf.getD 1 0 = 0x25
  · rw [if_pos c3]
    simp [ScanReports]
  · rw [if_neg c3]
    exact scan_primarion_reports T tr3 a

theorem scan_tps_reports (T : Transport) (tr : List Tx) (a : Nat) :
    ScanReports (scan_tps T tr a).1 := by
  unfold scan_tps
  rcases h2 : scan_read_block T tr a 0x00 0xAD 2 with ⟨rc2, ad2, tr2⟩
  dsimp only
  by_cases c2a : rc2 = 0 ∧ ad2.getD 0 0 = 0x01 ∧ ad2.getD 1 0 = 0x79
  · rw [if_pos c2a]
    simp [ScanReports]
  · rw [if_neg c2a]
    by_cases c2b : rc2 = 0 ∧ ad2.getD 0 0 = 0x01 ∧ ad2.getD 1 0 = 0x78
    · rw [if_pos c2b]
      simp [ScanReports]
    · rw [if_neg c2b]
      exact scan_mp_reports T tr2 a

theorem scan_isl_reports (T : Transport) (tr : List Tx) (a : Nat) :
    ScanReports (scan_isl T tr a).1 := by
  unfold scan_isl
  rcases h1 : scan_read_block T tr a 0x00 0xAD 5 with ⟨rc1, ad5, tr1⟩
  dsimp only
  by_cases c1 : rc1 = 0 ∧ ad5.length = 5 ∧ ad5.getD 4 0 = 0x49 ∧ ad5.getD 3 0 = 0xD2 ∧
      ad5.getD 2 0 = 0x23 ∧ ad5.getD 1 0 = 0x00
  · rw [if_pos c1]
    simp [ScanReports]
  · rw [if_neg c1]
    exact scan_tps_reports T tr1 a

/-- Claim C8: at every probed address the scanner produces at most one
family classification (only the Primarion-family report can be refined
to PXE1610C on the same route), and the families are tested in the fixed
priority order with stop-at-first-match: a failed presence probe
suppresses all checks; a matching ISL69127 signature wins with no
further read; the TPS read runs only after the ISL check did not match
and classifies as TPS53679 or TPS53678 by the second byte; the MP2955A
read runs only after the TPS read matched neither identifier, and a
match ends the address with no Primarion read (the log stops at the BF
read); and the Primarion/PXE1610C route is reached exactly when all
three earlier checks failed to match. -/
theorem C8_scan_order :
    (∀ (T : Transport) (tr : List Tx) (a : Nat), ScanReports (scan_addr T tr a).1) ∧
    (∀ (T : Transport) (tr : List Tx) (a : Nat) (rcp : Int) (d0 : List Nat) (tr0 : List Tx),
       read_block T tr a 0x00 1 = (rcp, d0, tr0) → rcp ≠ 0 →
       scan_addr T tr a = ([], none, tr0)) ∧
    (∀ (T : Transport) (tr : List Tx) (a : Nat) (rcp : Int) (d0 : List Nat)
       (tr0 : List Tx) (ad5 : List Nat) (tr1 : List Tx),
       read_block T tr a 0x00 1 = (rcp, d0, tr0) → rcp = 0 →
       scan_read_block T tr0 a 0x00 0xAD 5 = (0, ad5, tr1) →
       ad5.length = 5 → ad5.getD 4 0 = 0x49 → ad5.getD 3 0 = 0xD2 →
       ad5.getD 2 0 = 0x23 → ad5.getD 1 0 = 0x00 →
       scan_addr T tr a = ([Report.isl69127], none, tr1)) ∧
    (∀ (T : Transport) (tr : List Tx) (a : Nat) (rcp : Int) (d0 : List Nat)
       (tr0 : List Tx) (rc1 : Int) (ad5 : List Nat) (tr1 : List Tx)
       (ad2 : List Nat) (tr2 : List Tx),
       read_block T tr a 0x00 1 = (rcp, d0, tr0) → rcp = 0 →
       scan_read_block T tr0 a 0x00 0xAD 5 = (rc1, ad5, tr1) →
       ¬(rc1 = 0 ∧ ad5.length = 5 ∧ ad5.getD 4 0 = 0x49 ∧ ad5.getD 3 0 = 0xD2 ∧
          ad5.getD 2 0 = 0x23 ∧ ad5.getD 1 0 = 0x00) →
       scan_read_block T tr1 a 0x00 0xAD 2 = (0, ad2, tr2) →
       ad2.getD 0 0 = 0x01 → ad2.getD 1 0 = 0x79 →
       scan_addr T tr a = ([Report.tps53679], none, tr2)) ∧
    (∀ (T : Transport) (tr : List Tx) (a : Nat) (rcp : Int) (d0 : List Nat)
       (tr0 : List Tx) (rc1 : Int) (ad5 : List Nat) (tr1 : List Tx)
       (ad2 : List Nat) (tr2 : List Tx),
       read_block T tr a 0x00 1 = (rcp, d0, tr0) → rcp = 0 →
       scan_read_block T tr0 a 0x00 0xAD 5 = (rc1, ad5, tr1) →
       ¬(rc1 = 0 ∧ ad5.length = 5 ∧ ad5.getD 4 0 = 0x49 ∧ ad5.getD 3 0 = 0xD2 ∧
          ad5.getD 2 0 = 0x23 ∧ ad5.getD 1 0 = 0x00) →
       scan_read_block T tr1 a 0x00 0xAD 2 = (0, ad2, tr2) →
       ad2.getD 0 0 = 0x01 → ad2.getD 1 0 = 0x78 →
       scan_addr T tr a = ([Report.tps53678], none, tr2)) ∧
    (∀ (T : Transport) (tr : List Tx) (a : Nat) (rcp : Int) (d0 : List Nat)
       (tr0 : List Tx) (rc1 : Int) (ad5 : List Nat) (tr1 : List Tx)
       (rc2 : Int) (ad2 : List Nat) (tr2 : List Tx) (bf : List Nat) (tr3 : List Tx),
       read_block T tr a 0x00 1 = (rcp, d0, tr0) → rcp = 0 →
       scan_read_block T tr0 a 0x00 0xAD 5 = (rc1, ad5, tr1) →
       ¬(rc1 = 0 ∧ ad5.length = 5 ∧ ad5.getD 4 0 = 0x49 ∧ ad5.getD 3 0 = 0xD2 ∧
          ad5.getD 2 0 = 0x23 ∧ ad5.getD 1 0 = 0x00) →
       scan_read_block T tr1 a 0x00 0xAD 2 = (rc2, ad2, tr2) →
       ¬(rc2 = 0 ∧ ad2.getD 0 0 = 0x01 ∧ ad2.getD 1 0 = 0x79) →
       ¬(rc2 = 0 ∧ ad2.getD 0 0 = 0x01 ∧ ad2.getD 1 0 = 0x78) →
       scan_read_block T tr2 a 0x00 0xBF 2 = (0, bf, tr3) →
       bf.getD 0 0 = 0x55 → bf.getD 1 0 = 0x25 →
       scan_addr T tr a = ([Report.mp2955a], none, tr3)) ∧
    (∀ (T : Transport) (tr : List Tx) (a : Nat) (rcp : Int) (d0 : List Nat)
       (tr0 : List Tx) (rc1 : Int) (ad5 : List Nat) (tr1 : List Tx)
       (rc2 : Int) (ad2 : List Nat) (tr2 : List Tx)
       (rc3 : Int) (bf : List Nat) (tr3 : List Tx),
       read_block T tr a 0x00 1 = (rcp, d0, tr0) → rcp = 0 →
       scan_read_block T tr0 a 0x00 0xAD 5 = (rc1, ad5, tr1) →
       ¬(rc1 = 0 ∧ ad5.length = 5 ∧ ad5.getD 4 0 = 0x49 ∧ ad5.getD 3 0 = 0xD2 ∧
          ad5.getD 2 0 = 0x23 ∧ ad5.getD 1 0 = 0x00) →
       scan_read_block T tr1 a 0x00 0xAD 2 = (rc2, ad2, tr2) →
       ¬(rc2 = 0 ∧ ad2.getD 0 0 = 0x01 ∧ ad2.getD 1 0 = 0x79) →
       ¬(rc2 = 0 ∧ ad2.getD 0 0 = 0x01 ∧ ad2.getD 1 0 = 0x78) →
       scan_read_block T tr2 a 0x00 0xBF 2 = (rc3, bf, tr3) →
       ¬(rc3 = 0 ∧ bf.getD 0 0 = 0x55 ∧ bf.getD 1 0 = 0x25) →
       scan_addr T tr a = scan_primarion T tr3 a) := by
  refine ⟨?_, ?_, ?_, ?_, ?_, ?_, ?_⟩
  · intro T tr a
    unfold scan_addr
    rcases h0 : read_block T tr a 0x00 1 with ⟨rcp, d0, tr0⟩
    dsimp only
    by_cases c0 : rcp = 0
    · rw [if_pos c0]
      exact scan_isl_reports T tr0 a
    · rw [if_neg c0]
      simp [ScanReports]
  · intro T tr a rcp d0 tr0 h0 hrcp
    unfold scan_addr
    rw [h0]
    dsimp only
    rw [if_neg hrcp]
  · intro T tr a rcp d0 tr0 ad5 tr1 h0 hrcp h1 hlen h49 hD2 h23 h00
    unfold scan_addr
    rw [h0]
    dsimp only
    rw [if_pos hrcp]
    unfold scan_isl
    rw [h1]
    dsimp only
    rw [if_pos ⟨rfl, hlen, h49, hD2, h23, h00⟩]
  · intro T tr a rcp d0 tr0 rc1 ad5 tr1 ad2 tr2 h0 hrcp h1 hc1 h2 hb0 hb1
    unfold scan_addr
    rw [h0]
    dsimp only
    rw [if_pos hrcp]
    unfold scan_isl
    rw [h1]
    dsimp only
    rw [if_neg hc1]
    unfold scan_tps
    rw [h2]
    dsimp only
    rw [if_pos ⟨rfl, hb0, hb1⟩]
  · intro T tr a rcp d0 tr0 rc1 ad5 tr1 ad2 tr2 h0 hrcp h1 hc1 h2 hb0 hb1
    unfold scan_addr
    rw [h0]
    dsimp only
    rw [if_pos hrcp]
    unfold scan_isl
    rw [h1]
    dsimp only
    rw [if_neg hc1]
    unfold scan_tps
    rw [h2]
    dsimp only
    have hn79 : ¬((0 : Int) = 0 ∧ ad2.getD 0 0 = 0x01 ∧ ad2.getD 1 0 = 0x79) := by
      rintro ⟨-, -, h79⟩
      rw [hb1] at h79
      exact absurd h79 (by decide)
    rw [if_neg hn79]
    rw [if_pos ⟨rfl, hb0, hb1⟩]
  · intro T tr a rcp d0 tr0 rc1 ad5 tr1 rc2 ad2 tr2 bf tr3 h0 hrcp h1 hc1 h2 hn79 hn78
      h3 hbf0 hbf1
    unfold scan_addr
    rw [h0]
    dsimp only
    rw [if_pos hrcp]
    unfold scan_isl
    rw [h1]
    dsimp only
    rw [if_neg hc1]
    unfold scan_tps
    rw [h2]
    dsimp only
    rw [if_neg hn79, if_neg hn78]
    unfold scan_mp
    rw [h3]
    dsimp only
    rw [if_pos ⟨rfl, hbf0, hbf1⟩]
  · intro T tr a rcp d0 tr0 rc1 ad5 tr1 rc2 ad2 tr2 rc3 bf tr3 h0 hrcp h1 hc1 h2 hn79
      hn78 h3 hnbf
    unfold scan_addr
    rw [h0]
    dsimp only
    rw [if_pos hrcp]
    unfold scan_isl
    rw [h1]
    dsimp only
    rw [if_neg hc1]
    unfold scan_tps
    rw [h2]
    dsimp only
    rw [if_neg hn79, if_neg hn78]
    unfold scan_mp
    rw [h3]
    dsimp only
    rw [if_neg hnbf]

/-- Claim C8 witness: a device answering the ISL69127 signature at address
0x30 is classified as ISL69127 by the first check, with exactly the
probe, one page-select and the 5-byte identification read on the log. -/
theorem C8_scan_order_witness :
    scan_addr T_c8 [] 0x30 =
      ([Report.isl69127], none,
       [Tx.wr 0x30 0x00 1, Tx.w 0x30 [0x00, 0x00], Tx.wr 0x30 0xAD 5]) :=
  C8_scan_order.2.2.1 T_c8 [] 0x30 0 [0] [Tx.wr 0x30 0x00 1]
    [0x00, 0x00, 0x23, 0xD2, 0x49]
    [Tx.wr 0x30 0x00 1, Tx.w 0x30 [0x00, 0x00], Tx.wr 0x30 0xAD 5]
    (by decide) rfl (by decide) (by decide) (by decide) (by decide) (by decide) (by decide)

/-- Claim C3 counterexample: the TPS53679 procedure does emit a page-select
transaction `[0x00, 0x00]` (here during identification, before reporting
Skipped), contradicting the claim that the MP2955A/TPS procedures use
the "no page" sentinel and never emit a page-select. -/
theorem C3_counterexample :
    (tps53679_set_icc_max T_c3 [] 0x70).1 = MRes.skipped ∧
      Tx.w 0x70 [0x00, 0x00] ∈ (tps53679_set_icc_max T_c3 [] 0x70).2 := by
  exact ⟨by decide, by decide⟩

/-- Claim C3 as amended: the MP2955A and TPS53679/78 procedures run every
register access with page 0x00 (not the "no page" sentinel): every plain
write transaction they emit is either the page-select `[0x00, 0x00]` or
one of the family's two modification payloads, every read is one of the
family's two registers, and the very first transaction of either
procedure is always the page-select `[0x00, 0x00]`. -/
theorem C3_amended :
    (∀ (T : Transport) (tr : List Tx) (a : Nat) (tx : Tx),
       tx ∈ (mp2955a_set_icc_max T tr a).2 → tx ∈ tr ∨ tx ∈ mpAllowed a) ∧
    (∀ (T : Transport) (tr : List Tx) (a : Nat) (tx : Tx),
       tx ∈ (tps53679_set_icc_max T tr a).2 → tx ∈ tr ∨ tx ∈ tpsAllowed a) ∧
    (∀ (T : Transport) (tr : List Tx) (a : Nat),
       ∃ ext, (mp2955a_set_icc_max T tr a).2 = tr ++ Tx.w a [0x00, 0x00] :: ext) ∧
    (∀ (T : Transport) (tr : List Tx) (a : Nat),
       ∃ ext, (tps53679_set_icc_max T tr a).2 = tr ++ Tx.w a [0x00, 0x00] :: ext) := by
  refine ⟨?_, ?_, mp2955a_first, tps53679_first⟩
  · intro T tr a tx htx
    exact extendsWithin_mem (mp2955a_trace_extends T tr a) htx
  · intro T tr a tx htx
    exact extendsWithin_mem (tps53679_trace_extends T tr a) htx

/-- Claim C3 witness: on a concrete MP2955A run the page-select `[0x00,
0x00]` is on the log and the amended theorem classifies it. -/
theorem C3_amended_witness :
    Tx.w 0x62 [0x00, 0x00] ∈ (mp2955a_set_icc_max T_c3w [] 0x62).2 ∧
      (Tx.w 0x62 [0x00, 0x00] ∈ ([] : List Tx) ∨
        Tx.w 0x62 [0x00, 0x00] ∈ mpAllowed 0x62) :=
  ⟨by decide, C3_amended.1 T_c3w [] 0x62 (Tx.w 0x62 [0x00, 0x00]) (by decide)⟩

/-- Claim C2 counterexample: on `T_c2a` the PXE1610C commit trigger fails on
all four of its attempts (four `[0x34]` writes on the log) yet the
procedure ends in Success, not Error; and on `T_c2b` the only failing
stage is the final remaining-attempts telemetry read, yet the procedure
ends in Error — so the trigger failure is not fatal and the telemetry
read is not outcome-neutral, contradicting the claim. -/
theorem C2_counterexample :
    (pxe1610_set_icc_max T_c2a [] 0x58).1 = MRes.success ∧
      (pxe1610_set_icc_max T_c2a [] 0x58).2.count (Tx.w 0x58 [0x34]) = 4 ∧
      (pxe1610_set_icc_max T_c2b [] 0x58).1 = MRes.error := by
  exact ⟨by decide, by decide, by decide⟩

/-- Claim C2 as amended: the unlock, ICC_MAX value, NVM-password and
password-clear write failures each abort their procedure with Error at
once; the PXE1610C upload-trigger outcome is never tested (the procedure
always continues to the password clear); the first remaining-attempts
read and the MP2955A/TPS read-backs never influence control flow; but
the final PXE1610C remaining-attempts read decides Success vs Error, and
the MP2955A/TPS store triggers decide Success vs Error. -/
theorem C2_amended :
    (∀ (T : Transport) (tr : List Tx) (a : Nat) (tr' : List Tx),
       vrm_write_block T tr a 0x3F [0x27, 0x7C, 0xB3] = (-1, tr') →
       pxe_stage_unlock T tr a = (MRes.error, tr')) ∧
    (∀ (T : Transport) (tr : List Tx) (a : Nat) (tr' : List Tx),
       vrm_write_block T tr a 0x20 [0x73, 0xFF, 0x00] = (-1, tr') →
       pxe_stage_writeIcc T tr a = (MRes.error, tr')) ∧
    (∀ (T : Transport) (tr : List Tx) (a : Nat) (tr' : List Tx),
       vrm_write_block T tr a 0x3F [0x29, 0xD7, 0xEF] = (-1, tr') →
       pxe_stage_nvm T tr a = (MRes.error, tr')) ∧
    (∀ (T : Transport) (tr : List Tx) (a : Nat) (tr' : List Tx),
       vrm_write_block T tr a 0x3F [0x29, 0x00, 0x00] = (-1, tr') →
       pxe_stage_clear T tr a = (MRes.error, tr')) ∧
    (∀ (T : Transport) (tr : List Tx) (a : Nat),
       pxe_stage_trigger T tr a =
         pxe_stage_clear T (vrm_write_block T tr a 0x3F [0x34]).2 a) ∧
    (∀ (T : Transport) (tr : List Tx) (a : Nat),
       pxe_stage_att1 T tr a =
         pxe_stage_writeIcc T (vrm_read_block T tr a 0x50 0x82 2).2.2 a) ∧
    (∀ (T : Transport) (tr : List Tx) (a : Nat) (rc : Int) (d : List Nat) (tr' : List Tx),
       vrm_read_block T tr a 0x50 0x82 2 = (rc, d, tr') →
       pxe_stage_att2 T tr a = (if rc = 0 then MRes.success else MRes.error, tr')) ∧
    (∀ (T : Transport) (tr : List Tx) (a : Nat) (tr' : List Tx),
       vrm_write_block T tr a 0x00 [0xEF, 0xFF] = (-1, tr') →
       mp_stage_write T tr a = (MRes.error, tr')) ∧
    (∀ (T : Transport) (tr : List Tx) (a : Nat),
       mp_stage_readback T tr a =
         mp_stage_store T (vrm_read_block T tr a 0x00 0xEF 1).2.2 a) ∧
    (∀ (T : Transport) (tr : List Tx) (a : Nat) (rc : Int) (tr' : List Tx),
       vrm_write_block T tr a 0x00 [0x15] = (rc, tr') →
       mp_stage_store T tr a = (if rc = 0 then MRes.success else MRes.error, tr')) ∧
    (∀ (T : Transport) (tr : List Tx) (a : Nat) (tr' : List Tx),
       vrm_write_block T tr a 0x00 [0xDA, 0xFF, 0x00] = (-1, tr') →
       tps_stage_write T tr a = (MRes.error, tr')) ∧
    (∀ (T : Transport) (tr : List Tx) (a : Nat),
       tps_stage_readback T tr a =
         tps_stage_store T (vrm_read_block T tr a 0x00 0xDA 2).2.2 a) ∧
    (∀ (T : Transport) (tr : List Tx) (a : Nat) (rc : Int) (tr' : List Tx),
       vrm_write_block T tr a 0x00 [0x11] = (rc, tr') →
       tps_stage_store T tr a = (if rc = 0 then MRes.success else MRes.error, tr')) := by
  refine ⟨?_, ?_, ?_, ?_, fun T tr a => rfl, fun T tr a => rfl, ?_, ?_,
    fun T tr a => rfl, ?_, ?_, fun T tr a => rfl, ?_⟩
  · intro T tr a tr' h
    unfold pxe_stage_unlock
    rw [h]
    dsimp only
    rw [if_neg (by decide : ¬((-1 : Int) = 0))]
  · intro T tr a tr' h
    unfold pxe_stage_writeIcc
    rw [h]
    dsimp only
    rw [if_neg (by decide : ¬((-1 : Int) = 0))]
  · intro T tr a tr' h
    unfold pxe_stage_nvm
    rw [h]
    dsimp only
    rw [if_neg (by decide : ¬((-1 : Int) = 0))]
  · intro T tr a tr' h
    unfold pxe_stage_clear
    rw [h]
    dsimp only
    rw [if_neg (by decide : ¬((-1 : Int) = 0))]
  · intro T tr a rc d tr' h
    unfold pxe_stage_att2
    rw [h]
    dsimp only
    by_cases hrc : rc = 0 <;> simp [hrc]
  · intro T tr a tr' h
    unfold mp_stage_write
    rw [h]
    dsimp only
    rw [if_neg (by decide : ¬((-1 : Int) = 0))]
  · intro T tr a rc tr' h
    unfold mp_stage_store
    rw [h]
    dsimp only
    by_cases hrc : rc = 0 <;> simp [hrc]
  · intro T tr a tr' h
    unfold tps_stage_write
    rw [h]
    dsimp only
    rw [if_neg (by decide : ¬((-1 : Int) = 0))]
  · intro T tr a rc tr' h
    unfold tps_stage_store
    rw [h]
    dsimp only
    by_cases hrc : rc = 0 <;> simp [hrc]

/-- Claim C2 witness: on `T_c2w` the SMB-password unlock write exhausts its
four attempts, and the amended theorem yields the Error outcome at
exactly that log. -/
theorem C2_amended_witness :
    vrm_write_block T_c2w [] 0x58 0x3F [0x27, 0x7C, 0xB3] =
      (-1, [Tx.w 0x58 [0x00, 0x3F], Tx.w 0x58 [0x27, 0x7C, 0xB3],
            Tx.w 0x58 [0x00, 0x3F], Tx.w 0x58 [0x27, 0x7C, 0xB3],
            Tx.w 0x58 [0x00, 0x3F], Tx.w 0x58 [0x27, 0x7C, 0xB3],
            Tx.w 0x58 [0x00, 0x3F], Tx.w 0x58 [0x27, 0x7C, 0xB3]]) ∧
    pxe_stage_unlock T_c2w [] 0x58 =
      (MRes.error, [Tx.w 0x58 [0x00, 0x3F], Tx.w 0x58 [0x27, 0x7C, 0xB3],
                    Tx.w 0x58 [0x00, 0x3F], Tx.w 0x58 [0x27, 0x7C, 0xB3],
                    Tx.w 0x58 [0x00, 0x3F], Tx.w 0x58 [0x27, 0x7C, 0xB3],
                    Tx.w 0x58 [0x00, 0x3F], Tx.w 0x58 [0x27, 0x7C, 0xB3]]) :=
  ⟨by decide, C2_amended.1 T_c2w [] 0x58 _ (by decide)⟩

/-- Claim C1 counterexample: an MP2955A whose ICC_MAX reads 0xFF is reported
Skipped, but the procedure has already issued write transactions — the
page-select `[0x00, 0x00]` of the identification read is on the log — so
the claim that no write transaction is issued at any point during the
procedure fails. -/
theorem C1_counterexample :
    (mp2955a_set_icc_max T_c1 [] 0x60).1 = MRes.skipped ∧
      Tx.w 0x60 [0x00, 0x00] ∈ (mp2955a_set_icc_max T_c1 [] 0x60).2 := by
  exact ⟨by decide, by decide⟩

/-- Claim C1 as amended: in each family's procedure, if the ICC_MAX read
succeeds and returns 0xFF in the relevant byte, the procedure reports
Skipped immediately: its transaction log at that point is exactly the
log of the ICC_MAX read, so no transaction (in particular no write) is
issued after the skip decision.  Write transactions issued before it —
the page-selects of every paged access and, for PXE1610C, the SMB
password unlock — do occur. -/
theorem C1_amended :
    (∀ (T : Transport) (tr : List Tx) (a : Nat) (d : List Nat) (tr' : List Tx),
       vrm_read_block T tr a 0x20 0x73 2 = (0, d, tr') → d.getD 0 0 = 0xFF →
       pxe_stage_readIcc T tr a = (MRes.skipped, tr')) ∧
    (∀ (T : Transport) (tr : List Tx) (a : Nat) (d : List Nat) (tr' : List Tx),
       vrm_read_block T tr a 0x00 0xEF 1 = (0, d, tr') → d.getD 0 0 = 0xFF →
       mp2955a_modify T tr a = (MRes.skipped, tr')) ∧
    (∀ (T : Transport) (tr : List Tx) (a : Nat) (d : List Nat) (tr' : List Tx),
       vrm_read_block T tr a 0x00 0xDA 2 = (0, d, tr') → d.getD 0 0 = 0xFF →
       tps_modify T tr a = (MRes.skipped, tr')) := by
  refine ⟨?_, ?_, ?_⟩
  · intro T tr a d tr' h hff
    unfold pxe_stage_readIcc
    rw [h]
    dsimp only
    rw [if_pos (show (0 : Int) = 0 from rfl), if_pos hff]
  · intro T tr a d tr' h hff
    unfold mp2955a_modify
    rw [h]
    dsimp only
    rw [if_pos (show (0 : Int) = 0 from rfl), if_pos hff]
  · intro T tr a d tr' h hff
    unfold tps_modify
    rw [h]
    dsimp only
    rw [if_pos (show (0 : Int) = 0 from rfl), if_pos hff]

/-- Claim C1 witness: on `T_c1w` the MP2955A ICC_MAX read returns 0xFF after
a page-select and the read; the amended theorem reports Skipped with the
log frozen at exactly those two transactions. -/
theorem C1_amended_witness :
    vrm_read_block T_c1w [] 0x61 0x00 0xEF 1 =
      (0, [0xFF], [Tx.w 0x61 [0x00, 0x00], Tx.wr 0x61 0xEF 1]) ∧
    mp2955a_modify T_c1w [] 0x61 =
      (MRes.skipped, [Tx.w 0x61 [0x00, 0x00], Tx.wr 0x61 0xEF 1]) :=
  ⟨by decide, C1_amended.2.1 T_c1w [] 0x61 [0xFF] _ (by decide) (by decide)⟩
